import Mathlib

/-!
Verification of the Primordial artificial-life simulation core.

This development is a shallow embedding of the TypeScript simulation core
(`src/core/engine.ts`, the AoS `CellStorage` with 16-float stride,
`src/core/spatialGrid.ts`, the `SpeciesTracker` and `Environment` classes)
into Lean 4, together with theorems settling the specification claims.

Modelling conventions, stated once here and referenced below:

* IEEE-754 `f32`/`f64` values are modelled as exact rationals (`ℚ`).  All
  concrete inputs used in theorems are chosen so that the compared
  quantities are robust to this idealisation (for instance tie-breaking
  counterexamples use values that are identical bit patterns, not values
  separated by less than an ulp).
* `Float32Array.subarray` returns a live view into the backing buffer; the
  engine captures such genome views and sometimes reads them after
  `remove` has zeroed the backing slot.  The embedding reproduces this by
  re-reading the slot from the store at the moment the source dereferences
  the view, which is pointed out at each such place.
* `Math.random()` draws are passed in as explicit parameters (values in
  `[0,1]`), making every function deterministic in its inputs.
* `Math.log10(m)` composed with `Math.ceil` and multiplication by 3 is
  modelled exactly: `⌈3·log₁₀ m⌉ = Int.clog 10 (m³)` for `m > 0`, proved
  below (`clog_cube_eq_ceil`), keeping the definition computable.
* `Math.log(m)` (natural log, used only inside the absorption eat-radius)
  is transcendental; the engine is parameterised by a sample function
  `lnFn : ℚ → ℚ` standing for it.  Concrete scenarios instantiate `lnFn`
  so that it agrees with `ln` at every mass at which the source would
  evaluate it (in most scenarios that mass is `1`, where `ln 1 = 0`
  exactly), and so that the branch decisions agree with the true values.
* `Math.sqrt` is modelled by `ratSqrt` (integer square roots of numerator
  and denominator), which is exact on perfect squares; every concrete
  scenario only takes square roots of perfect squares, and the few places
  where the result feeds a comparison are additionally multiplied by a
  zero speed in the scenarios used.
* The `Environment` fields are generated from `sin`/`cos` harmonics; the
  engine embedding is parameterised by the sampled field functions
  (`solar`, `poison`, `blocked`), instantiated per scenario.
* The squared-distance transform: `SpeciesTracker.calculateDifference`
  returns `sqrt(Σd²)/sqrt 8` and is used only in `<` comparisons against
  other differences and against the threshold `0.05`; the embedding works
  with `Σd²` and the squared threshold `8·0.05² = 1/50`, an exact
  order-isomorphic transform.
-/

namespace Primordial

/-- Genome of a cell: 8 genes (SPD, AGG, PHO, SIZ, DEF, VIS, MUT, LIF). -/
abbrev Genome := Fin 8 → ℚ

/-- One 16-float stride of the AoS `cells` buffer:
offsets 0-7 are x, y, vx, vy, energy, archIdx, mass, speciesId/metadata,
offsets 8-15 are the genome. -/
structure Cell where
  x : ℚ
  y : ℚ
  vx : ℚ
  vy : ℚ
  energy : ℚ
  arch : ℚ
  mass : ℚ
  meta : ℚ
  genome : Genome

/-- The all-zero stride, the state of a slot after `init` or `remove`. -/
def zeroCell : Cell :=
  { x := 0, y := 0, vx := 0, vy := 0, energy := 0, arch := 0, mass := 0,
    meta := 0, genome := fun _ => 0 }

/-- Pointwise update of a `ℕ`-indexed buffer. -/
def setIdx {α : Type} (f : ℕ → α) (i : ℕ) (v : α) : ℕ → α :=
  fun j => if j = i then v else f j

/-!
Kernel-computable rational arithmetic.  The Batteries field operations on
`ℚ` are `@[irreducible]`, which blocks `decide`/`rfl` evaluation of
concrete scenarios, so the embedding routes every arithmetic operation
through `mkRat` (whose normalisation the kernel evaluates); the `…_eq`
lemmas identify each wrapper with the ordinary field operation, and the
general theorems rewrite with them before reasoning.
-/

/-- Rational literal `n / d`. -/
def q (n : ℤ) (d : ℕ) : ℚ := mkRat n d

/-- Computable addition on `ℚ`. -/
def qadd (a b : ℚ) : ℚ :=
  mkRat (a.num * (b.den : ℤ) + b.num * (a.den : ℤ)) (a.den * b.den)

/-- Computable negation on `ℚ`. -/
def qneg (a : ℚ) : ℚ := mkRat (-a.num) a.den

/-- Computable subtraction on `ℚ`. -/
def qsub (a b : ℚ) : ℚ := qadd a (qneg b)

/-- Computable multiplication on `ℚ`. -/
def qmul (a b : ℚ) : ℚ := mkRat (a.num * b.num) (a.den * b.den)

/-- Computable inverse on `ℚ` (`0⁻¹ = 0`). -/
def qinv (a : ℚ) : ℚ :=
  if a.num < 0 then mkRat (-(a.den : ℤ)) a.num.natAbs
  else mkRat (a.den : ℤ) a.num.natAbs

/-- Computable division on `ℚ`. -/
def qdiv (a b : ℚ) : ℚ := qmul a (qinv b)

/-- Computable absolute value on `ℚ`. -/
def qabs (a : ℚ) : ℚ := if a < 0 then qneg a else a

/-- Computable maximum on `ℚ`. -/
def qmax (a b : ℚ) : ℚ := if a ≤ b then b else a

/-- Computable minimum on `ℚ`. -/
def qmin (a b : ℚ) : ℚ := if a ≤ b then a else b

/-- Computable square. -/
def qsq (a : ℚ) : ℚ := qmul a a

/-- Computable cube (`Math.pow(x, 3)`). -/
def qcube (a : ℚ) : ℚ := qmul a (qmul a a)

/-- Computable floor (`Math.floor` on exact rationals). -/
def qfloor (a : ℚ) : ℤ := Rat.floor a

/-- CellStorage state (`part_009`): the double-buffered AoS store together
with the specialised side buffers.  `freeIndices` is the free-list stack
with the head as the top (the next index popped by `spawn`); the
constructor pushes `maxCells-1-i` in order, so the initial stack pops
`0, 1, 2, …`. -/
structure CellStorage where
  maxCells : ℕ
  cells : ℕ → Cell
  nextCells : ℕ → Cell
  generations : ℕ → ℕ
  isActive : ℕ → Bool
  visualColors : ℕ → ℚ × ℚ × ℚ × ℚ
  allianceId : ℕ → ℤ
  cooldowns : ℕ → ℚ
  freeIndices : List ℕ
  activeCount : ℤ
  friction : ℚ
  globalMutationRate : ℚ

/-- Fresh storage as produced by `CellStorage.init`. -/
def initStorage (n : ℕ) : CellStorage :=
  { maxCells := n
    cells := fun _ => zeroCell
    nextCells := fun _ => zeroCell
    generations := fun _ => 0
    isActive := fun _ => false
    visualColors := fun _ => (0, 0, 0, 0)
    allianceId := fun _ => -1
    cooldowns := fun _ => 0
    freeIndices := List.range n
    activeCount := 0
    friction := q 49 50
    globalMutationRate := 1 }

/-- Archetype derivation performed by `CellStorage.spawn`: the running
maximum starts at `0.7` and the genes are tested with strict `>` in the
order AGG (1), PHO (2), DEF (4), SPD (0); the result codes are
0 = average, 1 = predator, 2 = producer, 3 = tank, 4 = speedster. -/
def spawnArchetype (g : Genome) : ℕ :=
  let m1 : ℚ := if g 1 > q 7 10 then g 1 else q 7 10
  let a1 : ℕ := if g 1 > q 7 10 then 1 else 0
  let m2 : ℚ := if g 2 > m1 then g 2 else m1
  let a2 : ℕ := if g 2 > m1 then 2 else a1
  let m3 : ℚ := if g 4 > m2 then g 4 else m2
  let a3 : ℕ := if g 4 > m2 then 3 else a2
  if g 0 > m3 then 4 else a3

/-- Visual colour assigned by `CellStorage.spawn` for each archetype code. -/
def archColor (a : ℕ) : ℚ × ℚ × ℚ × ℚ :=
  if a = 1 then (1, 0, q 2 10, 1)
  else if a = 2 then (q 2 10, 1, 0, 1)
  else if a = 3 then (0, q 8 10, 1, 1)
  else if a = 4 then (1, 1, 1, 1)
  else (q 4 10, q 4 10, q 4 10, 0)

/-- CellStorage.spawn: pops a free index and writes position, zero
velocity, energy 100, mass 1, the genome and the derived archetype into
BOTH buffers.  Offset 7 (speciesId/metadata) is NOT written, so each
buffer's previous metadata value survives.  The genome is written
verbatim — no clamping.  Returns `none` when the free list is empty
(the source returns `-1`). -/
def spawn (st : CellStorage) (x y : ℚ) (g : Genome) :
    Option ℕ × CellStorage :=
  match st.freeIndices with
  | [] => (none, st)
  | idx :: rest =>
    let a : ℕ := spawnArchetype g
    let write : Cell → Cell := fun c =>
      { c with x := x, y := y, vx := 0, vy := 0, energy := 100, mass := 1,
               arch := (a : ℚ), genome := g }
    (some idx,
      { st with
        cells := setIdx st.cells idx (write (st.cells idx))
        nextCells := setIdx st.nextCells idx (write (st.nextCells idx))
        generations := setIdx st.generations idx 1
        isActive := setIdx st.isActive idx true
        allianceId := setIdx st.allianceId idx (-1)
        visualColors := setIdx st.visualColors idx (archColor a)
        freeIndices := rest
        activeCount := st.activeCount + 1 })

/-- CellStorage.remove: a no-op on an out-of-range or inactive index;
otherwise marks the slot inactive, pushes it on the free list, zeroes the
stride in both buffers and the visual colour, resets `allianceId` to `-1`
and the cooldown to `0`.  The `generations` entry is NOT touched. -/
def remove (st : CellStorage) (idx : ℕ) : CellStorage :=
  if idx < st.maxCells ∧ st.isActive idx = true then
    { st with
      isActive := setIdx st.isActive idx false
      freeIndices := idx :: st.freeIndices
      activeCount := st.activeCount - 1
      cells := setIdx st.cells idx zeroCell
      nextCells := setIdx st.nextCells idx zeroCell
      visualColors := setIdx st.visualColors idx (0, 0, 0, 0)
      allianceId := setIdx st.allianceId idx (-1)
      cooldowns := setIdx st.cooldowns idx 0 }
  else st

/-- CellStorage.getEnergy. -/
def getEnergy (st : CellStorage) (idx : ℕ) : ℚ := (st.cells idx).energy

/-- CellStorage.setEnergy writes the value into BOTH buffers. -/
def setEnergy (st : CellStorage) (idx : ℕ) (v : ℚ) : CellStorage :=
  { st with
    cells := setIdx st.cells idx { st.cells idx with energy := v }
    nextCells := setIdx st.nextCells idx { st.nextCells idx with energy := v } }

/-- Clamp to `[0,1]`, the `Math.max(0, Math.min(1, ·))` idiom. -/
def clamp01 (x : ℚ) : ℚ := qmax 0 (qmin 1 x)

/-- CellStorage.reproduce.  `rg i ∈ [0,1]` are the `Math.random()` draws
for the per-gene mutation, `rx, ry ∈ [0,1]` those for the position offset.
Each child gene is the parent gene plus
`(rg·2−1)·MUT·0.1·globalMutationRate`, clamped to `[0,1]`; the child
spawns at the parent position plus an offset in `[-5,5]²` and, when the
spawn succeeds, its generation is parent+1. -/
def reproduce (st : CellStorage) (parentIdx : ℕ) (rg : Fin 8 → ℚ)
    (rx ry : ℚ) : Option ℕ × CellStorage :=
  let pg := (st.cells parentIdx).genome
  let mutability := pg 6
  let childGenome : Genome := fun i =>
    clamp01 (qadd (pg i) (qmul (qmul (qmul (qsub (qmul (rg i) 2) 1) mutability) (q 1 10)) st.globalMutationRate))
  let x := qadd (st.cells parentIdx).x (qsub (qmul rx 10) 5)
  let y := qadd (st.cells parentIdx).y (qsub (qmul ry 10) 5)
  match spawn st x y childGenome with
  | (none, st') => (none, st')
  | (some childIdx, st') =>
    let gens := setIdx st'.generations childIdx (st'.generations parentIdx + 1)
    (some childIdx, { st' with generations := gens })

/-- CellStorage.updatePositions: friction then Euler step on the `cells`
buffer for each active slot, with positions and velocities copied into
`nextCells` ("keep nextCells in sync"). -/
def updatePositions (st : CellStorage) (dt : ℚ) : CellStorage :=
  (List.range st.maxCells).foldl
    (fun s i =>
      if s.isActive i then
        let c := s.cells i
        let vx := qmul c.vx s.friction
        let vy := qmul c.vy s.friction
        let c' := { c with vx := vx, vy := vy,
                           x := qadd c.x (qmul vx dt), y := qadd c.y (qmul vy dt) }
        let n := s.nextCells i
        let n' := { n with x := c'.x, y := c'.y, vx := vx, vy := vy }
        { s with cells := setIdx s.cells i c', nextCells := setIdx s.nextCells i n' }
      else s)
    st

/-- Grid bucket coordinate of a world coordinate:
`Math.floor((x / worldSize) * resolution)` with resolution 100. -/
def bucketOf (ws : ℚ) (x : ℚ) : ℤ := qfloor (qmul (qdiv x ws) 100)

/-- SpatialGrid.update: the rebuilt grid is modelled as the list of
`(index, gx, gy)` for every active cell whose bucket is inside the
100×100 grid, in ascending index order (the order the counting sort
scatters members of a shared bucket). -/
def gridUpdate (ws : ℚ) (st : CellStorage) : List (ℕ × ℤ × ℤ) :=
  (List.range st.maxCells).filterMap fun i =>
    if st.isActive i then
      let gx := bucketOf ws (st.cells i).x
      let gy := bucketOf ws (st.cells i).y
      if 0 ≤ gx ∧ gx < 100 ∧ 0 ≤ gy ∧ gy < 100 then some (i, gx, gy) else none
    else none

/-- Closed integer interval as a list (empty when `b < a`). -/
def intRange (a b : ℤ) : List ℤ :=
  (List.range (b + 1 - a).toNat).map (fun n => a + (n : ℤ))

/-- SpatialGrid.query: every index stored in a bucket overlapping the
square `[x-r, x+r] × [y-r, y+r]` (bucket ranges clamped to the grid), in
the source's visit order: `gy` outer loop, `gx` inner loop, then bucket
members in insertion (ascending index) order.  The radius itself is NOT
checked — that is left to the caller, and `Engine.processCell` never
does check it. -/
def gridQuery (ws : ℚ) (grid : List (ℕ × ℤ × ℤ)) (x y r : ℚ) : List ℕ :=
  let gxs := intRange (max 0 (bucketOf ws (qsub x r))) (min 99 (bucketOf ws (qadd x r)))
  let gys := intRange (max 0 (bucketOf ws (qsub y r))) (min 99 (bucketOf ws (qadd y r)))
  gys.foldr
    (fun gy acc =>
      gxs.foldr
        (fun gx acc2 =>
          (grid.filterMap fun e =>
            if e.2.1 = gx ∧ e.2.2 = gy then some e.1 else none) ++ acc2)
        acc)
    []

/-- Sampled environment fields.  The source generates them once from
harmonic (`sin`/`cos`) maps; the embedding abstracts over the sampled
functions (see the header notes). -/
structure Env where
  solar : ℚ → ℚ → ℚ
  poison : ℚ → ℚ → ℚ
  blocked : ℚ → ℚ → Bool

/-- Events emitted through `Engine.onEvent`.  Archetype colours are the
codes produced by `getDominantArchetype` (0 = Promedio, 1 = Depredador,
2 = Productor, 3 = Tanque, 4 = Velocista). -/
inductive Event where
  | fusion (color : ℕ) (mass : ℚ)
  | alliance (color : ℕ) (count : ℕ)
  | colony (color : ℕ) (mass : ℚ)
  | absorption (mass : ℚ)
  | assimilation (predator prey : ℕ)
deriving DecidableEq

/-- Whether an event is a `Fusion` event. -/
def Event.isFusion : Event → Bool
  | .fusion _ _ => true
  | _ => false

/-- Engine.getDominantArchetype: running maximum starting at `0`, genes
tested with strict `>` in the order AGG (1), PHO (2), DEF (4), SPD (0);
returns the colour code of the last test that fired (0 when none). -/
def getDominantArchetype (g : Genome) : ℕ :=
  let p1 : ℚ × ℕ := if g 1 > 0 then (g 1, 1) else (0, 0)
  let p2 : ℚ × ℕ := if g 2 > p1.1 then (g 2, 2) else p1
  let p3 : ℚ × ℕ := if g 4 > p2.1 then (g 4, 3) else p2
  let p4 : ℚ × ℕ := if g 0 > p3.1 then (g 0, 4) else p3
  p4.2

/-- Scaled-feeding factor from `processCell`'s thermodynamics: for
`mass > 2` the source computes `level = Math.ceil(Math.log10(mass) * 3)`
and multiplies the gain by `1 + level·0.2`.  Using
`⌈3·log₁₀ m⌉ = Int.clog 10 (m³)` (lemma `clog_cube_eq_ceil` below) keeps
the definition computable. -/
def feedFactor (m : ℚ) : ℚ :=
  if 2 < m then qadd 1 (qmul ((Int.clog 10 (m ^ 3) : ℤ) : ℚ) (q 2 10)) else 1

/-- Solar energy gain of `processCell`:
`(solar · PHO · 45 · foodAbundance) · dt`, scaled by `feedFactor mass`. -/
def solarGainCode (si pho fa dt m : ℚ) : ℚ :=
  qmul (qmul (qmul (qmul (qmul si pho) 45) fa) dt) (feedFactor m)

/-- Mutable state threaded through the neighbour-visit loop of
`processCell`: the storage, the accumulated events, the LOCAL `energy`
variable of `processCell` (a JS `let` captured by the callback), and the
hunt/flee target accumulators (`none` models the initial `Infinity`
distances and `-1` targets). -/
structure VisitState where
  st : CellStorage
  events : List Event
  energy : ℚ
  bestTarget : Option ℕ
  minDist : Option ℚ
  fleeTarget : Option ℕ
  minFleeDist : Option ℚ

/-- Comparison against a possibly-`Infinity` running minimum. -/
def ltMin (d : ℚ) : Option ℚ → Bool
  | none => true
  | some v => decide (d < v)

/-- Update only the `cells` buffer at one slot (the engine's direct
`this.storage.cells[…] = …` writes, which do NOT touch `nextCells`). -/
def modifyCell (st : CellStorage) (i : ℕ) (f : Cell → Cell) : CellStorage :=
  { st with cells := setIdx st.cells i (f (st.cells i)) }

/-- One neighbour visit of the `processCell` spatial query callback
(`engine.ts` lines 385-485), parameterised by the processed index `idx`,
its snapshotted position `(x, y)`, its AGG and DEF genes, `dt` and the
natural-log sample `lnFn`.  Mirrors the source rule order: absorption
(which ends the visit), mass steal, alliance cooperation, predation
target selection, flee target selection.  All mass/energy writes inside
the callback go to the `cells` buffer only. -/
def visitNeighbor (idx : ℕ) (x y agg dfn dt : ℚ) (lnFn : ℚ → ℚ)
    (s : VisitState) (nIdx : ℕ) : VisitState :=
  if nIdx = idx then s else
  let st := s.st
  let tx := (st.cells nIdx).x
  let ty := (st.cells nIdx).y
  let distSq := qadd (qsq (qsub tx x)) (qsq (qsub ty y))
  let nGenome := (st.cells nIdx).genome
  let nMass := (st.cells nIdx).mass
  let myMass := (st.cells idx).mass
  let myAlliance := st.allianceId idx
  let nAlliance := st.allianceId nIdx
  let areAllies := myAlliance ≠ -1 ∧ myAlliance = nAlliance
  let eatRadiusSq := qsq (qmul 8 (qadd 1 (qmul (lnFn myMass) (q 3 2))))
  if myMass > qmul nMass (q 12 10) ∧ distSq < qmul eatRadiusSq (q 12 10) ∧ ¬areAllies then
    -- absorption: consume the neighbour and stop processing it
    let st := modifyCell st idx fun c =>
      { c with mass := qadd c.mass nMass, energy := qadd c.energy (qmul s.energy (q 1 2)) }
    let st := remove st nIdx
    let events := if nMass > 5 then s.events ++ [Event.absorption nMass] else s.events
    { s with st := st, events := events }
  else
    let s2 :=
      if ¬areAllies ∧ agg > q 1 2 ∧ myMass > qmul nMass (q 12 10) then
        let steal := qmul (q 3 2) dt
        let events :=
          if myMass > 2 ∧ nMass > 2 ∧ qsub nMass steal ≤ q 1 10 then
            s.events ++ [Event.assimilation
              (getDominantArchetype ((st.cells idx).genome))
              (getDominantArchetype nGenome)]
          else s.events
        let st := modifyCell st idx fun c => { c with mass := qadd c.mass steal }
        let st := modifyCell st nIdx fun c => { c with mass := qsub c.mass steal }
        let st := modifyCell st idx fun c => { c with energy := qadd c.energy (qmul steal 10) }
        { s with st := st, events := events }
      else s
    let s3 :=
      if myAlliance ≠ -1 ∧ myAlliance = nAlliance then
        let nEnergy := (s2.st.cells nIdx).energy
        if s2.energy > 100 ∧ nEnergy < 50 then
          let transfer := qmul 10 dt
          { s2 with
            energy := qsub s2.energy transfer
            st := modifyCell s2.st nIdx fun c => { c with energy := qadd c.energy transfer } }
        else s2
      else s2
    let s4 :=
      if s3.energy < 60 ∧ nGenome 4 < agg ∧ myMass ≥ nMass ∧ ltMin distSq s3.minDist then
        { s3 with minDist := some distSq, bestTarget := some nIdx }
      else s3
    if nGenome 1 > dfn ∧ ltMin distSq s4.minFleeDist then
      { s4 with minFleeDist := some distSq, fleeTarget := some nIdx }
    else s4

/-- Bisection step for the integer square root, structurally recursive on
the fuel so that the kernel can evaluate it.  Invariant: `lo² ≤ n < hi²`. -/
def natSqrtGo (n : ℕ) : ℕ → ℕ → ℕ → ℕ
  | 0, lo, _ => lo
  | fuel + 1, lo, hi =>
    let mid := (lo + hi) / 2
    if mid = lo then lo
    else if mid * mid ≤ n then natSqrtGo n fuel mid hi
    else natSqrtGo n fuel lo mid

/-- Kernel-computable `⌊√n⌋`. -/
def natSqrt (n : ℕ) : ℕ := natSqrtGo n (n + 1) 0 (n + 1)

/-- Kernel-computable integer square root (`0` on negatives, as
`Int.sqrt`). -/
def intSqrt : ℤ → ℤ
  | .ofNat n => (natSqrt n : ℤ)
  | .negSucc _ => 0

/-- Rational stand-in for `Math.sqrt`: square root of numerator and
denominator separately, exact on perfect squares (see the header notes;
every concrete scenario in this file only takes square roots of perfect
squares). -/
def ratSqrt (q : ℚ) : ℚ := mkRat (intSqrt q.num) (natSqrt q.den)

/-- Engine.fragmentColony: removes the colony and spawns
`min 5 ⌊mass/2⌋` survivors at random radial offsets with "the same
genome".  The genome argument in the source is a live view into the
removed slot, so every survivor is spawned from the post-`remove`
(hence zeroed, or freshly respawned) slot contents; the embedding
re-reads the slot at each spawn accordingly.  `offsets` are the random
scatter offsets (`cos/sin(angle)·dist` pairs). -/
def fragmentColony (st : CellStorage) (idx : ℕ) (mass : ℚ)
    (offsets : List (ℚ × ℚ)) : CellStorage :=
  let x := (st.cells idx).x
  let y := (st.cells idx).y
  let survivors : ℕ := min 5 (qfloor (qdiv mass 2)).toNat
  let st := remove st idx
  (List.range survivors).foldl
    (fun s k =>
      let o := offsets.getD k (0, 0)
      (spawn s (qadd x o.1) (qadd y o.2) ((s.cells idx).genome)).2)
    st

/-- Evolution step of `processCell` (`engine.ts` lines 521-530): when the
local energy exceeds the reproduction threshold 150, attempt
`reproduce`, count a birth only when it succeeded, charge 80 energy
UNCONDITIONALLY, and raise the `-1.0` glow sentinel in the metadata slot
(`cells` buffer only); otherwise clear a stale sentinel.  Returns the
storage, the updated cumulative birth counter and the local energy. -/
def evolutionStep (st : CellStorage) (births : ℕ) (idx : ℕ) (e : ℚ)
    (rg : Fin 8 → ℚ) (rx ry : ℚ) : CellStorage × ℕ × ℚ :=
  if e > 150 then
    match reproduce st idx rg rx ry with
    | (res, st') =>
      let births' := if res.isSome then births + 1 else births
      let st'' := modifyCell st' idx fun c => { c with meta := -1 }
      (st'', births', qsub e 80)
  else if (st.cells idx).meta = -1 then
    (modifyCell st idx fun c => { c with meta := 0 }, births, e)
  else (st, births, e)

/-- Death/write-back step ending `processCell` (`engine.ts` lines
532-536): an agent whose local energy is `≤ 0` is removed; otherwise the
LOCAL energy value is written back through `setEnergy`, overwriting
whatever interaction gains were added to the buffered energy during the
neighbour loop. -/
def deathStep (st : CellStorage) (idx : ℕ) (e : ℚ) : CellStorage :=
  if e ≤ 0 then remove st idx else setEnergy st idx e

/-- Random draws consumed by one `processCell` invocation (all
`Math.random()` outputs in `[0,1]`, except `fragOffsets`, which are the
already-composed `cos/sin(angle)·dist` scatter offsets of
`fragmentColony`). -/
structure Rand where
  wanderX : ℚ
  wanderY : ℚ
  reproG : Fin 8 → ℚ
  reproX : ℚ
  reproY : ℚ
  fragOffsets : List (ℚ × ℚ)

/-- Midpoint randomness: every `Math.random()` returns `0.5`. -/
def midRand : Rand :=
  { wanderX := q 1 2, wanderY := q 1 2, reproG := fun _ => q 1 2,
    reproX := q 1 2, reproY := q 1 2, fragOffsets := [] }

/-- Engine.wander: random velocity kick of `(rand−0.5)·10` per axis,
then the speed is capped at `SPD·50` (`cells` buffer only). -/
def wander (st : CellStorage) (idx : ℕ) (speedMult rX rY : ℚ) : CellStorage :=
  let st := modifyCell st idx fun c =>
    { c with vx := qadd c.vx (qmul (qsub rX (q 1 2)) 10), vy := qadd c.vy (qmul (qsub rY (q 1 2)) 10) }
  let vx := (st.cells idx).vx
  let vy := (st.cells idx).vy
  let speed := ratSqrt (qadd (qmul vx vx) (qmul vy vy))
  let maxSpeed := qmul speedMult 50
  if speed > maxSpeed ∧ speed > 0 then
    modifyCell st idx fun c =>
      { c with vx := qmul (qdiv vx speed) maxSpeed, vy := qmul (qdiv vy speed) maxSpeed }
  else st

/-- Engine.processCell (`engine.ts` lines 335-537): thermodynamics,
fragmentation, the neighbour loop (perception/interaction), locomotion,
evolution and death, in source order.  Parameters: world size, sampled
environment, natural-log sample, food abundance, the (tick-start,
possibly stale) spatial grid, `dt` and this agent's random draws.
Returns the storage, the event list and the cumulative birth counter. -/
def processCell (ws : ℚ) (env : Env) (lnFn : ℚ → ℚ) (fa : ℚ)
    (grid : List (ℕ × ℤ × ℤ)) (dt : ℚ) (rand : Rand)
    (st : CellStorage) (events : List Event) (births : ℕ) (idx : ℕ) :
    CellStorage × List Event × ℕ :=
  let g := (st.cells idx).genome
  let speedMultiplier := g 0
  let aggressiveness := g 1
  let photoEfficiency := g 2
  let size := g 3
  let dfn := g 4
  let visionRange := qmul (g 5) 100
  let x := (st.cells idx).x
  let y := (st.cells idx).y
  let vx := (st.cells idx).vx
  let vy := (st.cells idx).vy
  let energyCost := qadd (qadd (qmul (qadd (qmul vx vx) (qmul vy vy)) (q 1 2)) (qmul (qcube size) 1)) (qmul visionRange (q 5 1000))
  let e1 := qsub (st.cells idx).energy (qmul energyCost dt)
  let mass := (st.cells idx).mass
  let e2 := qadd e1 (solarGainCode (env.solar x y) photoEfficiency fa dt mass)
  let poison := env.poison x y
  let e3 := if poison > 0 then qsub e2 (qmul (qmul poison 50) dt) else e2
  if q 3 2 < mass ∧ mass < 10 then
    (fragmentColony st idx mass rand.fragOffsets, events, births)
  else
    let neighbors := gridQuery ws grid x y visionRange
    let s0 : VisitState :=
      { st := st, events := events, energy := e3, bestTarget := none,
        minDist := none, fleeTarget := none, minFleeDist := none }
    let s1 := neighbors.foldl (visitNeighbor idx x y aggressiveness dfn dt lnFn) s0
    -- locomotion
    let s2 :=
      match s1.fleeTarget with
      | some ft =>
        let tx := (s1.st.cells ft).x
        let ty := (s1.st.cells ft).y
        let dx := qsub x tx
        let dy := qsub y ty
        let dist := ratSqrt (qadd (qmul dx dx) (qmul dy dy))
        let maxSpeed := qmul speedMultiplier 100
        if dist > q 1 10 then
          { s1 with st := modifyCell s1.st idx fun c =>
              { c with vx := qmul (qdiv dx dist) maxSpeed, vy := qmul (qdiv dy dist) maxSpeed } }
        else s1
      | none =>
        match s1.bestTarget with
        | some bt =>
          let tx := (s1.st.cells bt).x
          let ty := (s1.st.cells bt).y
          let dx := qsub tx x
          let dy := qsub ty y
          let dist := ratSqrt (qadd (qmul dx dx) (qmul dy dy))
          let maxSpeed := qmul speedMultiplier 100
          let s' :=
            if dist > q 1 10 then
              { s1 with st := modifyCell s1.st idx fun c =>
                  { c with vx := qmul (qdiv dx dist) maxSpeed, vy := qmul (qdiv dy dist) maxSpeed } }
            else s1
          if dist < qadd (qmul size 10) (qmul ((s'.st.cells bt).genome 3) 10) then
            { s' with energy := qadd s'.energy 30, st := remove s'.st bt }
          else s'
        | none =>
          { s1 with st := wander s1.st idx speedMultiplier rand.wanderX rand.wanderY }
    -- evolution and death
    match evolutionStep s2.st births idx s2.energy rand.reproG rand.reproX rand.reproY with
    | (st', births', e') => (deathStep st' idx e', s2.events, births')

/-- One species record of the `SpeciesTracker` (`part_007`). -/
structure Species where
  id : ℕ
  representativeDNA : Genome
  population : ℕ
  color : ℤ × ℤ × ℤ

/-- SpeciesTracker state: ordered prototype list and the next (monotone)
species id, starting at 1. -/
structure SpeciesTracker where
  speciesList : List Species
  nextId : ℕ

/-- Fresh tracker. -/
def initTracker : SpeciesTracker := { speciesList := [], nextId := 1 }

/-- Squared genome distance `Σ (a i − b i)²`.  The source compares
`sqrt(Σd²)/sqrt 8` values with `<`; the embedding compares the squared
sums, an order-isomorphic transform (see the header notes). -/
def genomeDistSq (a b : Genome) : ℚ :=
  (List.range 8).foldl (fun acc i => qadd acc (qsq (qsub (a i) (b i)))) 0

/-- Colour hint of a new species: `(⌊AGG·255⌋, ⌊PHO·255⌋, ⌊DEF·255⌋)`. -/
def dnaToColor (g : Genome) : ℤ × ℤ × ℤ :=
  (qfloor (qmul (g 1) 255), qfloor (qmul (g 2) 255), qfloor (qmul (g 4) 255))

/-- One step of the nearest-prototype scan (`diff < minDiff`, so the
first minimal prototype wins ties). -/
def nearestStep (g : Genome) (acc : Option (ℕ × ℚ)) (p : ℕ × Species) :
    Option (ℕ × ℚ) :=
  let d := genomeDistSq g p.2.representativeDNA
  match acc with
  | none => some (p.1, d)
  | some (bi, bd) => if d < bd then some (p.1, d) else some (bi, bd)

/-- Index of the strictly-nearest prototype together with its squared
distance. -/
def nearestSpecies (l : List Species) (g : Genome) : Option (ℕ × ℚ) :=
  l.enum.foldl (nearestStep g) none

/-- SpeciesTracker.identify: assign the nearest prototype's id (and bump
its population) when the squared distance is below `8·0.05² = 1/50`;
otherwise append a new species with this genome as prototype,
population 1 and the next id. -/
def identify (tr : SpeciesTracker) (g : Genome) : ℕ × SpeciesTracker :=
  match nearestSpecies tr.speciesList g with
  | some (bi, bd) =>
    if bd < q 1 50 then
      match tr.speciesList.get? bi with
      | some sp =>
        (sp.id,
          { tr with speciesList :=
              tr.speciesList.set bi { sp with population := sp.population + 1 } })
      | none => (0, tr)
    else
      (tr.nextId,
        { speciesList := tr.speciesList ++
            [{ id := tr.nextId, representativeDNA := g, population := 1,
               color := dnaToColor g }]
          nextId := tr.nextId + 1 })
  | none =>
    (tr.nextId,
      { speciesList := tr.speciesList ++
          [{ id := tr.nextId, representativeDNA := g, population := 1,
             color := dnaToColor g }]
        nextId := tr.nextId + 1 })

/-- SpeciesTracker.resetCounts. -/
def resetCounts (tr : SpeciesTracker) : SpeciesTracker :=
  { tr with speciesList := tr.speciesList.map fun s => { s with population := 0 } }

/-- SpeciesTracker.prune: drop species with zero population. -/
def prune (tr : SpeciesTracker) : SpeciesTracker :=
  { tr with speciesList := tr.speciesList.filter fun s => decide (0 < s.population) }

/-- Increment of the per-species population count record. -/
def bumpCount (counts : List (ℕ × ℕ)) (id : ℕ) : List (ℕ × ℕ) :=
  if counts.any (fun p => p.1 = id) then
    counts.map fun p => if p.1 = id then (p.1, p.2 + 1) else p
  else counts ++ [(id, 1)]

/-- One slot of the species pass: identify an active cell's genome and
write the id into the metadata slot of the `cells` buffer only. -/
def speciesStep (acc : CellStorage × SpeciesTracker × List (ℕ × ℕ))
    (i : ℕ) : CellStorage × SpeciesTracker × List (ℕ × ℕ) :=
  if acc.1.isActive i then
    let r := identify acc.2.1 ((acc.1.cells i).genome)
    (modifyCell acc.1 i (fun c => { c with meta := (r.1 : ℚ) }),
      r.2, bumpCount acc.2.2 r.1)
  else acc

/-- Engine.updateSpecies: reset populations, identify every active cell
(writing the id into the metadata slot of the `cells` buffer only),
prune extinct species.  Returns the storage, tracker and the population
counts handed to `Analytics.record`. -/
def updateSpecies (st : CellStorage) (tr : SpeciesTracker) :
    CellStorage × SpeciesTracker × List (ℕ × ℕ) :=
  let tr := resetCounts tr
  let res := (List.range st.maxCells).foldl speciesStep (st, tr, [])
  (res.1, prune res.2.1, res.2.2)

/-- Engine.formColony: fold over the cluster accumulating total mass,
centroid sums and the most-energetic member (strict `>` against a
running maximum starting at `-1`), removing each member as it is
visited; then spawn the replacement at the centroid.  The captured
"best genome" is a view into the best member's (by then zeroed) slot, so
the embedding re-reads that slot at the moments the source dereferences
the view: at the spawn call and again for the event colour. -/
def formColony (st : CellStorage) (events : List Event)
    (cluster : List ℕ) : CellStorage × List Event :=
  let acc := cluster.foldl
    (fun (a : ℚ × ℚ × ℚ × ℚ × Option ℕ × CellStorage) idx =>
      let (totalMass, sumX, sumY, maxE, best, s) := a
      let m := (s.cells idx).mass
      let e := (s.cells idx).energy
      let px := (s.cells idx).x
      let py := (s.cells idx).y
      let (maxE', best') := if e > maxE then (e, some idx) else (maxE, best)
      (qadd totalMass m, qadd sumX px, qadd sumY py, maxE', best', remove s idx))
    (0, 0, 0, -1, none, st)
  match acc.2.2.2.2.1 with
  | none => (acc.2.2.2.2.2, events)
  | some bestIdx =>
    let totalMass := acc.1
    let maxE := acc.2.2.2.1
    let st1 := acc.2.2.2.2.2
    let n : ℚ := (cluster.length : ℚ)
    let cx := qdiv acc.2.1 n
    let cy := qdiv acc.2.2.1 n
    match spawn st1 cx cy ((st1.cells bestIdx).genome) with
    | (none, st2) => (st2, events)
    | (some newIdx, st2) =>
      let st3 := modifyCell st2 newIdx fun c =>
        { c with mass := totalMass, energy := qadd maxE (qmul totalMass 10),
                 vx := 0, vy := 0, meta := -1 }
      (st3, events ++
        [Event.colony (getDominantArchetype ((st3.cells bestIdx).genome)) totalMass])

/-- Engine.checkSwarmDensity (the 30-tick colony pass): with threshold
`T = 15` and radius `R = 50` (or `T = 5`, `R = 80` above 2000 active
agents), walk the slots in index order, gather unvisited same-archetype
neighbours from the (tick-start) grid, and fuse every cluster whose size
exceeds `T` through `formColony`. -/
def checkSwarmDensity (ws : ℚ) (grid : List (ℕ × ℤ × ℤ))
    (st : CellStorage) (events : List Event) : CellStorage × List Event :=
  let p : ℕ × ℚ := if st.activeCount > 2000 then (5, 80) else (15, 50)
  let densityThreshold := p.1
  let searchRadius := p.2
  let scan := (List.range st.maxCells).foldl
    (fun (a : List (List ℕ) × List ℕ) i =>
      let (toMerge, visited) := a
      if ¬(st.isActive i = true) ∨ i ∈ visited then a
      else
        let x := (st.cells i).x
        let y := (st.cells i).y
        let mySpecies := (st.cells i).arch
        let q := gridQuery ws grid x y searchRadius
        let r := q.foldl
          (fun (b : List ℕ × List ℕ) nIdx =>
            if nIdx = i ∨ nIdx ∈ b.2 then b
            else if (st.cells nIdx).arch = mySpecies then
              (b.1 ++ [nIdx], b.2 ++ [nIdx])
            else b)
          ([i], visited)
        if densityThreshold < r.1.length then
          (toMerge ++ [r.1], r.2 ++ r.1)
        else (toMerge, r.2))
    ([], [])
  scan.1.foldl (fun (a : CellStorage × List Event) cl => formColony a.1 a.2 cl)
    (st, events)

/-- Alliance-id assignment to a member list. -/
def setAllianceIds (st : CellStorage) (members : List ℕ) (aid : ℤ) :
    CellStorage :=
  members.foldl
    (fun s m => { s with allianceId := setIdx s.allianceId m aid }) st

/-- Most energetic member: `alliance.reduce((prev, curr) => energy curr >
energy prev ? curr : prev)` over a nonempty list (head as initial). -/
def bestByEnergy (st : CellStorage) (members : List ℕ) : ℕ :=
  match members with
  | [] => 0
  | h :: t =>
    t.foldl (fun prev curr =>
      if (st.cells curr).energy > (st.cells prev).energy then curr else prev) h

/-- Partner search of `updateAlliances`: greedily add up to two more
unvisited candidate colonies within distance 400 whose summed
SPD/AGG/PHO gene difference is below `0.3`, marking partners visited as
they are added. -/
def partnerSearch (st : CellStorage) (colonies : List ℕ) (visited : List ℕ)
    (idx : ℕ) : List ℕ × List ℕ :=
  let myG := (st.cells idx).genome
  let x := (st.cells idx).x
  let y := (st.cells idx).y
  colonies.foldl
    (fun (a : List ℕ × List ℕ) otherIdx =>
      if 3 ≤ a.1.length then a
      else if otherIdx ∈ a.2 then a
      else
        let tx := (st.cells otherIdx).x
        let ty := (st.cells otherIdx).y
        let distSq := qadd (qsq (qsub x tx)) (qsq (qsub y ty))
        if distSq < 160000 then
          let oG := (st.cells otherIdx).genome
          let diff := qadd (qadd (qabs (qsub (myG 0) (oG 0))) (qabs (qsub (myG 1) (oG 1)))) (qabs (qsub (myG 2) (oG 2)))
          if diff < q 3 10 then (a.1 ++ [otherIdx], a.2 ++ [otherIdx])
          else a
        else a)
    ([idx], visited ++ [idx])

/-- One iteration of the `updateAlliances` colony loop, acting on the
accumulator `(storage, events, visited, nextAllianceId)`: skip visited
candidates, search partners, register valid triplets (assigning the new
alliance id BEFORE the fusion check, so the ids survive a failed
fusion), fuse triplets whose total mass exceeds 100 — removing the
members only after a successful super-colony spawn — and emit the
matching event.  The fusion-event colour dereferences the best member's
genome view AFTER the members were removed, hence reads a zeroed slot. -/
def allianceStep (colonies : List ℕ)
    (a : CellStorage × List Event × List ℕ × ℤ) (idx : ℕ) :
    CellStorage × List Event × List ℕ × ℤ :=
  if idx ∈ a.2.2.1 then a
  else
    let s := a.1
    let evs := a.2.1
    let nextAllianceId := a.2.2.2
    let pr := partnerSearch s colonies a.2.2.1 idx
    let alliance := pr.1
    let visited' := pr.2
    if 3 ≤ alliance.length then
      let s1 := setAllianceIds s alliance nextAllianceId
      let totalMass := alliance.foldl (fun t m => qadd t (s1.cells m).mass) 0
      let n : ℚ := (alliance.length : ℚ)
      let cx := qdiv (alliance.foldl (fun t m => qadd t (s1.cells m).x) 0) n
      let cy := qdiv (alliance.foldl (fun t m => qadd t (s1.cells m).y) 0) n
      if totalMass > 100 then
        let bestMember := bestByEnergy s1 alliance
        match spawn s1 cx cy ((s1.cells bestMember).genome) with
        | (none, s2) => (s2, evs, visited', nextAllianceId + 1)
        | (some superIdx, s2) =>
          let s3 := modifyCell s2 superIdx fun c =>
            { c with mass := qmul totalMass (q 11 10), energy := 5000, meta := -1 }
          let s4 := alliance.foldl remove s3
          (s4,
            evs ++ [Event.fusion
              (getDominantArchetype ((s4.cells bestMember).genome)) totalMass],
            visited', nextAllianceId + 1)
      else
        (s1,
          evs ++ [Event.alliance
            (getDominantArchetype ((s1.cells (alliance.headD 0)).genome))
            alliance.length],
          visited', nextAllianceId + 1)
    else (s, evs, visited', nextAllianceId)

/-- Engine.updateAlliances (the 60-tick alliance pass): reset all
alliance ids to `-1`, collect live agents with `mass > 2`, and run the
colony loop. -/
def updateAlliances (st : CellStorage) (events : List Event) :
    CellStorage × List Event :=
  let st := { st with allianceId := fun _ => -1 }
  let colonies := (List.range st.maxCells).filter
    (fun i => st.isActive i && decide ((2 : ℚ) < (st.cells i).mass))
  let res := colonies.foldl (allianceStep colonies) (st, events, [], 1)
  (res.1, res.2.1)

/-- Engine.boundaryCheck: barrier cells reflect with `v *= -1.2` and push
the position by `v·0.1` (`cells` buffer only, `nextCells` NOT synced);
the world-edge wrap tests use the position read BEFORE the barrier push,
exactly as the source snapshots `x`/`y` at the top of the loop body. -/
def boundaryCheck (ws : ℚ) (env : Env) (st : CellStorage) : CellStorage :=
  (List.range st.maxCells).foldl
    (fun s i =>
      if s.isActive i then
        let x := (s.cells i).x
        let y := (s.cells i).y
        let s1 :=
          if env.blocked x y then
            modifyCell s i fun c =>
              let vx := qmul c.vx (qneg (q 12 10))
              let vy := qmul c.vy (qneg (q 12 10))
              { c with vx := vx, vy := vy,
                       x := qadd c.x (qmul vx (q 1 10)), y := qadd c.y (qmul vy (q 1 10)) }
          else s
        let s2 := if x < 0 then modifyCell s1 i (fun c => { c with x := ws }) else s1
        let s3 := if x > ws then modifyCell s2 i (fun c => { c with x := 0 }) else s2
        let s4 := if y < 0 then modifyCell s3 i (fun c => { c with y := ws }) else s3
        if y > ws then modifyCell s4 i (fun c => { c with y := 0 }) else s4
      else s)
    st

/-- Swap of the ping-pong buffers (`update` step 5).  Only `spawn`,
`remove`, `setEnergy` and `updatePositions` keep the two buffers in
sync; every direct `cells[…]` write (mass, metadata, velocity, the
colony/alliance post-spawn overrides) lives in one buffer only and is
hidden (or resurrected) by this swap. -/
def swapBuffers (st : CellStorage) : CellStorage :=
  { st with cells := st.nextCells, nextCells := st.cells }

/-- Engine state: storage plus the orchestration fields of `Engine`.
`grid` is the spatial index as of its last rebuild; `rand` streams are
supplied per tick. -/
structure Engine where
  worldSize : ℚ
  env : Env
  lnFn : ℚ → ℚ
  storage : CellStorage
  tracker : SpeciesTracker
  analytics : List (List (ℕ × ℕ))
  frameCount : ℕ
  foodAbundance : ℚ
  totalBirths : ℕ
  totalDeaths : ℕ
  events : List Event

/-- Engine.update (one `tick(dt)`): rebuild the grid, run the species
pass on tick 1 and every 60th tick, process every active cell in index
order counting as frame deaths only the cells that die during their OWN
processing, integrate positions, apply the boundary policy, swap the
ping-pong buffers, and run the 30-tick colony pass and 60-tick alliance
pass.  `rand i` supplies the random draws consumed by cell `i`. -/
def engineUpdate (e : Engine) (dt : ℚ) (rand : ℕ → Rand) : Engine :=
  let fc := e.frameCount + 1
  let grid := gridUpdate e.worldSize e.storage
  let (st0, tr0, an0) :=
    if fc = 1 ∨ fc % 60 = 0 then
      let r := updateSpecies e.storage e.tracker
      (r.1, r.2.1, e.analytics ++ [r.2.2])
    else (e.storage, e.tracker, e.analytics)
  let loop := (List.range st0.maxCells).foldl
    (fun (a : CellStorage × List Event × ℕ × ℕ) i =>
      let (s, evs, births, frameDeaths) := a
      if s.isActive i then
        let r := processCell e.worldSize e.env e.lnFn e.foodAbundance
          grid dt (rand i) s evs births i
        let fd := if r.1.isActive i then frameDeaths else frameDeaths + 1
        (r.1, r.2.1, r.2.2, fd)
      else a)
    (st0, e.events, e.totalBirths, 0)
  let st1 := updatePositions loop.1 dt
  let st2 := boundaryCheck e.worldSize e.env st1
  let st3 := swapBuffers st2
  let (st4, evs4) :=
    if fc % 30 = 0 then checkSwarmDensity e.worldSize grid st3 loop.2.1
    else (st3, loop.2.1)
  let (st5, evs5) :=
    if fc % 60 = 0 then updateAlliances st4 evs4 else (st4, evs4)
  { e with
    storage := st5
    tracker := tr0
    analytics := an0
    frameCount := fc
    totalBirths := loop.2.2.1
    totalDeaths := e.totalDeaths + loop.2.2.2
    events := evs5 }

/-- Iterated ticks with a fixed per-cell random stream. -/
def runTicks (e : Engine) (dt : ℚ) (rand : ℕ → Rand) : ℕ → Engine
  | 0 => e
  | n + 1 => runTicks (engineUpdate e dt rand) dt rand n

/-!
Concrete scenarios.  `zeroEnv` is the sampled environment with zero solar
and poison fields and no barriers (the spec's boundary scenarios do not
pin down the world size or the procedural fields; the outcomes proved
below depend on the environment only through the agents' `PHO = 0`
genes, which annihilate the solar term, and the nonnegative poison
term).
-/

/-- Environment sample with zero fields. -/
def zeroEnv : Env :=
  { solar := fun _ _ => 0, poison := fun _ _ => 0, blocked := fun _ _ => false }

/-- Predator genome of spec boundary scenario 2:
`AGG = 0.9, SPD = 0.9, VIS = 0.5`, other genes 0. -/
def predSeedG : Genome := fun i =>
  if i.val = 0 then q 9 10 else if i.val = 1 then q 9 10
  else if i.val = 5 then q 1 2 else 0

/-- Prey genome of spec boundary scenario 2: `DEF = 0.1`, other genes 0. -/
def preySeedG : Genome := fun i => if i.val = 4 then q 1 10 else 0

/-- The two-agent seed: predator spawned at `(100,100)` (index 0), prey
at `(101,100)` (index 1), both with spawn defaults `energy = 100`,
`mass = 1`. -/
def predSeedStorage : CellStorage :=
  (spawn (spawn (initStorage 2) 100 100 predSeedG).2 101 100 preySeedG).2

/-- Engine state for the two-agent seed (world size 1000, zero fields,
`ln` sampled at mass 1 where `ln 1 = 0` exactly). -/
def predSeedEngine : Engine :=
  { worldSize := 1000, env := zeroEnv, lnFn := fun _ => 0,
    storage := predSeedStorage, tracker := initTracker, analytics := [],
    frameCount := 0, foodAbundance := 1, totalBirths := 0, totalDeaths := 0,
    events := [] }

/-- The seed advanced `n` ticks at `dt = 0.1` with midpoint randomness. -/
def predSeedRun (n : ℕ) : Engine := runTicks predSeedEngine (q 1 10) (fun _ => midRand) n

/-- Archetype rule as the claim words it: the maximum among
(SPD, AGG, PHO, DEF) with threshold `≥ 0.7`, ties resolved in the order
SPD, AGG, PHO, DEF. -/
def claimArchetype (g : Genome) : ℕ :=
  let M := qmax (qmax (g 0) (g 1)) (qmax (g 2) (g 4))
  if q 7 10 ≤ M then
    if g 0 = M then 4
    else if g 1 = M then 1
    else if g 2 = M then 2
    else 3
  else 0

/-- Genome with SPD = AGG = 0.9: a tie between Speedster and Predator. -/
def tieG : Genome := fun i => if i.val = 0 then q 9 10 else if i.val = 1 then q 9 10 else 0

/-- Solar gain as claim C7 words it: `solar·PHO·45·foodAbundance·dt`,
scaled by `1 + log₂ mass` for every mass exceeding 2. -/
noncomputable def solarGainClaim (si pho fa dt m : ℚ) : ℝ :=
  ((si : ℝ) * pho * 45 * fa * dt) *
    (if 2 < m then 1 + Real.logb 2 (m : ℝ) else 1)

/-- One-slot storage holding a freshly spawned agent, used by the
`remove` theorems. -/
def removeSeedStorage : CellStorage :=
  (spawn (initStorage 1) 3 4 (fun _ => q 1 2)).2

/-- Genome with LIF = 2 (outside `[0,1]`) and all other genes 0.5. -/
def overG : Genome := fun i => if i.val = 7 then 2 else q 1 2

/-- One-agent engine seeded through the public `spawn` with the
out-of-range genome, world size 1000, zero environment fields. -/
def overEngine : Engine :=
  { worldSize := 1000, env := zeroEnv, lnFn := fun _ => 0,
    storage := (spawn (initStorage 1) 5 5 overG).2, tracker := initTracker,
    analytics := [], frameCount := 0, foodAbundance := 1, totalBirths := 0,
    totalDeaths := 0, events := [] }

/-- Predator genome for the mass-steal scenarios: `AGG = 0.9`,
`VIS = 0.5`, other genes 0. -/
def stealPredG : Genome := fun i =>
  if i.val = 1 then q 9 10 else if i.val = 5 then q 1 2 else 0

/-- Hand-built storage: an aggressive agent of mass 1.4 at `(100,100)`
and a mass-1 victim at `(120,100)` (distance 20, outside the absorption
radius but inside vision), both buffers in sync, store full. -/
def stealStorage : CellStorage :=
  let pred : Cell :=
    { x := 100, y := 100, vx := 0, vy := 0, energy := 100, arch := 1,
      mass := q 7 5, meta := 0, genome := stealPredG }
  let prey : Cell :=
    { x := 120, y := 100, vx := 0, vy := 0, energy := 100, arch := 0,
      mass := 1, meta := 0, genome := fun _ => 0 }
  let buf : ℕ → Cell := fun i => if i = 0 then pred else if i = 1 then prey else zeroCell
  { maxCells := 2, cells := buf, nextCells := buf,
    generations := fun _ => 1, isActive := fun i => decide (i < 2),
    visualColors := fun _ => (0, 0, 0, 0), allianceId := fun _ => -1,
    cooldowns := fun _ => 0, freeIndices := [], activeCount := 2,
    friction := q 49 50, globalMutationRate := 1 }

/-- Engine around `stealStorage`.  The `ln` sample is `1/3 ≈ ln 1.4`:
the only gate that consumes it compares the squared distance 400 with
`(8·(1+ln(1.4)·1.5))²·1.2`, which is below 400 for the sampled value
(172.8) just as for the true logarithm (≈ 173.9). -/
def stealEngine : Engine :=
  { worldSize := 1000, env := zeroEnv, lnFn := fun _ => q 1 3,
    storage := stealStorage, tracker := initTracker, analytics := [],
    frameCount := 0, foodAbundance := 1, totalBirths := 0, totalDeaths := 0,
    events := [] }

/-- Hand-built storage for the steal-gating counterexample: an
aggressive mass-1 agent at `(100,100)` and a mass-0.2 victim at
`(110,100)` (distance 10: outside the mass-1 absorption radius, inside
vision). -/
def gateStorage : CellStorage :=
  let pred : Cell :=
    { x := 100, y := 100, vx := 0, vy := 0, energy := 100, arch := 1,
      mass := 1, meta := 0, genome := stealPredG }
  let prey : Cell :=
    { x := 110, y := 100, vx := 0, vy := 0, energy := 100, arch := 0,
      mass := q 1 5, meta := 0, genome := fun _ => 0 }
  let buf : ℕ → Cell := fun i => if i = 0 then pred else if i = 1 then prey else zeroCell
  { maxCells := 2, cells := buf, nextCells := buf,
    generations := fun _ => 1, isActive := fun i => decide (i < 2),
    visualColors := fun _ => (0, 0, 0, 0), allianceId := fun _ => -1,
    cooldowns := fun _ => 0, freeIndices := [], activeCount := 2,
    friction := q 49 50, globalMutationRate := 1 }

/-- Result of processing the aggressive agent (index 0) once over
`gateStorage` at `dt = 0.1`. -/
def gateRun : CellStorage × List Event × ℕ :=
  processCell 1000 zeroEnv (fun _ => 0) 1 (gridUpdate 1000 gateStorage)
    (q 1 10) midRand gateStorage [] 0 0

/-- Three mutually compatible mass-40 colonies within alliance range on
a FULL three-slot store (total mass 120 exceeds the fusion threshold,
but the spawn must fail). -/
def allianceSeedStorage : CellStorage :=
  let mk : ℚ → Cell := fun px =>
    { x := px, y := 100, vx := 0, vy := 0, energy := 100, arch := 0,
      mass := 40, meta := 0, genome := fun _ => q 1 2 }
  let buf : ℕ → Cell := fun i =>
    if i = 0 then mk 100 else if i = 1 then mk 200 else if i = 2 then mk 300
    else zeroCell
  { maxCells := 3, cells := buf, nextCells := buf,
    generations := fun _ => 1, isActive := fun i => decide (i < 3),
    visualColors := fun _ => (0, 0, 0, 0), allianceId := fun _ => -1,
    cooldowns := fun _ => 0, freeIndices := [], activeCount := 3,
    friction := q 49 50, globalMutationRate := 1 }

/-- A value is the id of a species present in the tracker with a live
(positive) population count. -/
def TrackedLive (tr : SpeciesTracker) (v : ℚ) : Prop :=
  ∃ s, s ∈ tr.speciesList ∧ v = (s.id : ℚ) ∧ 0 < s.population

/-- Producer genome: `PHO = 0.8`, other genes 0 (archetype Producer). -/
def prodG : Genome := fun i => if i.val = 2 then q 4 5 else 0

/-- Sixteen co-located Producer agents (archetype 2, mass 1) at
`(104,100)`; slot 3 is the most energetic (energy 120, others 100).
Both buffers in sync, store full. -/
def colonySeedStorage : CellStorage :=
  let mk : ℚ → Cell := fun e =>
    { x := 104, y := 100, vx := 0, vy := 0, energy := e, arch := 2,
      mass := 1, meta := 0, genome := prodG }
  { maxCells := 16
    cells := fun i => if i < 16 then (if i = 3 then mk 120 else mk 100) else zeroCell
    nextCells := fun i => if i < 16 then (if i = 3 then mk 120 else mk 100) else zeroCell
    generations := fun _ => 1
    isActive := fun i => decide (i < 16)
    visualColors := fun _ => (0, 0, 0, 0)
    allianceId := fun _ => -1
    cooldowns := fun _ => 0
    freeIndices := []
    activeCount := 16
    friction := q 49 50
    globalMutationRate := 1 }

/-- The 30-tick colony pass run over the sixteen Producers (world size
1000, grid as rebuilt from the current positions). -/
def colonyRun : CellStorage × List Event :=
  checkSwarmDensity 1000 (gridUpdate 1000 colonySeedStorage)
    colonySeedStorage []

theorem q_eq (n : ℤ) (d : ℕ) : q n d = (n : ℚ) / (d : ℚ) :=
  Rat.mkRat_eq_div n d

theorem qadd_eq (a b : ℚ) : qadd a b = a + b := by
  unfold qadd
  rw [Rat.mkRat_eq_div]
  have ha : ((a.den : ℚ)) ≠ 0 := Nat.cast_ne_zero.mpr a.den_nz
  have hb : ((b.den : ℚ)) ≠ 0 := Nat.cast_ne_zero.mpr b.den_nz
  conv_rhs => rw [← Rat.num_div_den a, ← Rat.num_div_den b]
  push_cast
  field_simp

theorem qneg_eq (a : ℚ) : qneg a = -a := by
  unfold qneg
  rw [Rat.mkRat_eq_div]
  conv_rhs => rw [← Rat.num_div_den a]
  push_cast
  ring

theorem qsub_eq (a b : ℚ) : qsub a b = a - b := by
  unfold qsub
  rw [qadd_eq, qneg_eq, sub_eq_add_neg]

theorem qmul_eq (a b : ℚ) : qmul a b = a * b := by
  unfold qmul
  rw [Rat.mkRat_eq_div]
  have ha : ((a.den : ℚ)) ≠ 0 := Nat.cast_ne_zero.mpr a.den_nz
  have hb : ((b.den : ℚ)) ≠ 0 := Nat.cast_ne_zero.mpr b.den_nz
  conv_rhs => rw [← Rat.num_div_den a, ← Rat.num_div_den b]
  push_cast
  field_simp

theorem qinv_eq (a : ℚ) : qinv a = a⁻¹ := by
  have hinv : a⁻¹ = ((a.den : ℤ) : ℚ) / ((a.num : ℤ) : ℚ) := by
    rw [Rat.inv_def', Rat.divInt_eq_div]
  rw [hinv]
  unfold qinv
  by_cases h : a.num < 0
  · rw [if_pos h, Rat.mkRat_eq_div, Int.cast_natAbs, abs_of_neg h]
    push_cast
    rw [neg_div_neg_eq]
  · rw [if_neg h, Rat.mkRat_eq_div, Int.cast_natAbs, abs_of_nonneg (le_of_not_lt h)]

theorem qdiv_eq (a b : ℚ) : qdiv a b = a / b := by
  unfold qdiv
  rw [qmul_eq, qinv_eq, div_eq_mul_inv]

theorem qabs_eq (a : ℚ) : qabs a = |a| := by
  unfold qabs
  by_cases h : a < 0
  · rw [if_pos h, qneg_eq, abs_of_neg h]
  · rw [if_neg h, abs_of_nonneg (le_of_not_lt h)]

theorem qmax_eq (a b : ℚ) : qmax a b = max a b := (max_def a b).symm

theorem qmin_eq (a b : ℚ) : qmin a b = min a b := (min_def a b).symm

theorem qsq_eq (a : ℚ) : qsq a = a ^ 2 := by
  unfold qsq
  rw [qmul_eq, sq]

theorem qcube_eq (a : ℚ) : qcube a = a ^ 3 := by
  unfold qcube
  rw [qmul_eq, qmul_eq, pow_succ, pow_two]
  ring

theorem qfloor_eq (a : ℚ) : qfloor a = ⌊a⌋ := by
  unfold qfloor
  rw [Rat.floor_def' a, Rat.floor_def]

/-- Claim C6, counterexample: for the two-agent seed of spec boundary
scenario 2, the prey (index 1) is still active after every one of the
first 5 ticks at `dt = 0.1`, the cumulative death counter stays 0 (so no
tick had `frame_deaths = 1`), and no event of any kind is emitted — in
particular no Death event, a type the engine does not even possess.  The
predator starts at energy 100, far above the hunger threshold 60, so the
predation rule never selects a target, and with matching masses neither
absorption nor mass steal can fire. -/
theorem predSeed_prey_survives :
    (predSeedRun 1).storage.isActive 1 = true ∧
    (predSeedRun 2).storage.isActive 1 = true ∧
    (predSeedRun 3).storage.isActive 1 = true ∧
    (predSeedRun 4).storage.isActive 1 = true ∧
    (predSeedRun 5).storage.isActive 1 = true ∧
    (predSeedRun 5).totalDeaths = 0 ∧
    (predSeedRun 1).totalDeaths = 0 ∧
    (predSeedRun 2).totalDeaths = 0 ∧
    (predSeedRun 3).totalDeaths = 0 ∧
    (predSeedRun 4).totalDeaths = 0 ∧
    (predSeedRun 5).events = [] := by
  decide

/-- Claim C6, amended: for the two-agent seed (midpoint randomness, zero
environment fields), after 5 ticks at `dt = 0.1` both agents are still
active, the predator's energy is `100 − 5·(VIS·100·0.005)·dt = 99.875`
(pure upkeep, still above the hunger threshold 60 that would be needed
before it ever hunts), the prey's energy is still 100, no events are
emitted and the cumulative death and birth counters stay 0. -/
theorem predSeed_amended :
    (predSeedRun 5).storage.isActive 0 = true ∧
    (predSeedRun 5).storage.isActive 1 = true ∧
    getEnergy (predSeedRun 5).storage 0 = q 799 8 ∧
    getEnergy (predSeedRun 5).storage 1 = 100 ∧
    (60 : ℚ) < q 799 8 ∧
    (predSeedRun 5).events = [] ∧
    (predSeedRun 5).totalDeaths = 0 ∧
    (predSeedRun 5).totalBirths = 0 := by
  decide

/-- Claim C5, counterexample: on the genome with SPD = AGG = 0.9 the
claim's rule (ties resolved SPD first) yields Speedster (4), but
`CellStorage.spawn` derives Predator (1): the source tests AGG first
with a strict `>`, so the earlier check wins ties.  The spawned slot's
archetype field records 1. -/
theorem archetype_tie_counterexample :
    spawnArchetype tieG = 1 ∧ claimArchetype tieG = 4 ∧
    ((spawn (initStorage 1) 0 0 tieG).2.cells 0).arch = 1 := by
  decide

/-- Claim C5, amended: the archetype assigned by `CellStorage.spawn` is
determined by the maximum among (AGG, PHO, DEF, SPD): if that maximum
STRICTLY exceeds 0.7 the archetype is the corresponding tag
(AGG → Predator 1, PHO → Producer 2, DEF → Tank 3, SPD → Speedster 4),
with ties resolved in the order AGG, PHO, DEF, SPD (the earlier gene
wins a tie); otherwise Average (0).  Stated as a characterisation: each
tag is assigned exactly when the corresponding gene strictly exceeds
0.7, weakly dominates the genes tested after it and strictly dominates
the genes tested before it; Average is assigned exactly when all four
genes are at most 0.7. -/
theorem archetype_amended (g : Genome) :
    (spawnArchetype g = 1 ↔ q 7 10 < g 1 ∧ g 2 ≤ g 1 ∧ g 4 ≤ g 1 ∧ g 0 ≤ g 1) ∧
    (spawnArchetype g = 2 ↔ q 7 10 < g 2 ∧ g 1 < g 2 ∧ g 4 ≤ g 2 ∧ g 0 ≤ g 2) ∧
    (spawnArchetype g = 3 ↔ q 7 10 < g 4 ∧ g 1 < g 4 ∧ g 2 < g 4 ∧ g 0 ≤ g 4) ∧
    (spawnArchetype g = 4 ↔ q 7 10 < g 0 ∧ g 1 < g 0 ∧ g 2 < g 0 ∧ g 4 < g 0) ∧
    (spawnArchetype g = 0 ↔ g 1 ≤ q 7 10 ∧ g 2 ≤ q 7 10 ∧ g 4 ≤ q 7 10 ∧ g 0 ≤ q 7 10) := by
  unfold spawnArchetype
  dsimp only
  split_ifs <;>
    (repeat' apply And.intro) <;>
    (constructor <;> intro h) <;>
    first
      | rfl
      | exact ⟨by linarith, by linarith, by linarith, by linarith⟩
      | exact absurd h (by decide)
      | exact absurd h (by intro hc; obtain ⟨hh1, hh2, hh3, hh4⟩ := hc; linarith)

/-- Exactness of the embedding of `Math.ceil(Math.log10(m) * 3)`: for
positive `m` it equals `Int.clog 10 (m³)`, since both are the least `k`
with `m³ ≤ 10^k`. -/
theorem clog_cube_eq_ceil (m : ℚ) (hm : 0 < m) :
    Int.clog 10 (m ^ 3) = ⌈(3 : ℝ) * Real.logb 10 (m : ℝ)⌉ := by
  have hm3 : (0 : ℚ) < m ^ 3 := by positivity
  have key : ∀ k : ℤ, Int.clog 10 (m ^ 3) ≤ k ↔ (⌈(3 : ℝ) * Real.logb 10 (m : ℝ)⌉ : ℤ) ≤ k := by
    intro k
    rw [← Int.le_zpow_iff_clog_le (by norm_num) hm3, Int.ceil_le]
    have h3 : (3 : ℝ) * Real.logb 10 (m : ℝ) = Real.logb 10 (((m ^ 3 : ℚ) : ℝ)) := by
      push_cast
      rw [Real.logb_pow]
      norm_num
    rw [h3, Real.logb_le_iff_le_rpow (by norm_num) (by positivity), Real.rpow_intCast]
    constructor
    · intro h
      have h' : ((m ^ 3 : ℚ) : ℝ) ≤ ((((10 : ℕ) : ℚ) ^ k : ℚ) : ℝ) := by exact_mod_cast h
      calc ((m ^ 3 : ℚ) : ℝ) ≤ ((((10 : ℕ) : ℚ) ^ k : ℚ) : ℝ) := h'
        _ = (10 : ℝ) ^ k := by push_cast; norm_num
    · intro h
      have h' : ((m ^ 3 : ℚ) : ℝ) ≤ ((((10 : ℕ) : ℚ) ^ k : ℚ) : ℝ) := by
        calc ((m ^ 3 : ℚ) : ℝ) ≤ (10 : ℝ) ^ k := h
          _ = ((((10 : ℕ) : ℚ) ^ k : ℚ) : ℝ) := by push_cast; norm_num
      exact_mod_cast h'
  exact le_antisymm ((key _).mpr le_rfl) ((key _).mp le_rfl)

/-- Claim C7, counterexample: at mass 100 (with unit solar, PHO, food
abundance and dt) the engine's gain `solarGainCode` is
`45 · (1 + 0.2·⌈3·log₁₀ 100⌉) = 45 · 2.2 = 99`, while the claim's
`1 + log₂ mass` scaling demands `45 · (1 + log₂ 100) > 135`. -/
theorem feeding_counterexample :
    ((solarGainCode 1 1 1 1 100 : ℚ) : ℝ) = 99 ∧
    solarGainClaim 1 1 1 1 100 ≠ 99 := by
  constructor
  · unfold solarGainCode feedFactor
    rw [if_pos (by norm_num : (2 : ℚ) < 100)]
    have hc : Int.clog 10 ((100 : ℚ) ^ 3) = 6 := by
      have h6 : ((100 : ℚ) ^ 3) = ((10 : ℕ) : ℚ) ^ (6 : ℤ) := by norm_num
      rw [h6, Int.clog_zpow (by norm_num)]
    simp only [qmul_eq, qadd_eq, q_eq, hc]
    norm_num
  · unfold solarGainClaim
    rw [if_pos (by norm_num : (2 : ℚ) < 100)]
    have h2 : (2 : ℝ) < Real.logb 2 ((100 : ℚ) : ℝ) := by
      have h4 : Real.logb 2 (4 : ℝ) = 2 := by
        have : (4 : ℝ) = 2 ^ (2 : ℕ) := by norm_num
        rw [this, Real.logb_pow, Real.logb_self_eq_one (by norm_num)]
        norm_num
      have hlt : Real.logb 2 (4 : ℝ) < Real.logb 2 ((100 : ℚ) : ℝ) := by
        apply Real.logb_lt_logb (by norm_num) (by norm_num)
        norm_num
      linarith
    intro heq
    rw [show ((1 : ℚ) : ℝ) = 1 by norm_num] at heq
    nlinarith [h2]

/-- Claim C7, amended: for every agent with mass exceeding 2 the solar
gain used by `processCell` is `solar·PHO·45·foodAbundance·dt` scaled by
the factor `1 + ⌈3·log₁₀ mass⌉ / 5` (the source computes
`level = Math.ceil(Math.log10(mass)·3)` and multiplies by
`1 + level·0.2`), not `1 + log₂ mass`. -/
theorem feeding_amended (si pho fa dt m : ℚ) (hm : 2 < m) :
    ((solarGainCode si pho fa dt m : ℚ) : ℝ) =
      ((si : ℝ) * pho * 45 * fa * dt) *
        (1 + (⌈(3 : ℝ) * Real.logb 10 (m : ℝ)⌉ : ℝ) / 5) := by
  unfold solarGainCode feedFactor
  rw [if_pos hm, ← clog_cube_eq_ceil m (by linarith)]
  simp only [qmul_eq, qadd_eq, q_eq]
  push_cast
  ring

/-- Witness for `feeding_amended` at mass 100: the hypothesis `2 < 100`
holds, the ceiling is 6 and the gain evaluates to `45·2.2 = 99`. -/
theorem feeding_amended_witness :
    (2 : ℚ) < 100 ∧
    ((solarGainCode 1 1 1 1 100 : ℚ) : ℝ) =
      ((1 : ℚ) : ℝ) * 1 * 45 * 1 * 1 * (1 + ((6 : ℤ) : ℝ) / 5) := by
  constructor
  · norm_num
  · have happ := feeding_amended 1 1 1 1 100 (by norm_num)
    rw [happ]
    have hc : (⌈(3 : ℝ) * Real.logb 10 ((100 : ℚ) : ℝ)⌉ : ℤ) = 6 := by
      rw [← clog_cube_eq_ceil 100 (by norm_num)]
      have h6 : ((100 : ℚ) ^ 3) = ((10 : ℕ) : ℚ) ^ (6 : ℤ) := by norm_num
      rw [h6, Int.clog_zpow (by norm_num)]
    rw [hc]
    push_cast
    ring

/-- Claim C8, counterexample: after `remove` frees a just-spawned slot,
the slot's `generations` entry still reads 1 (remove never touches the
generation buffer) and its `allianceId` reads `-1` — so not every
per-slot byte of the slot's buffers reads as zero. -/
theorem remove_counterexample :
    (remove removeSeedStorage 0).generations 0 = 1 ∧ (1 : ℕ) ≠ 0 ∧
    (remove removeSeedStorage 0).allianceId 0 = -1 ∧ (-1 : ℤ) ≠ 0 := by
  decide

/-- Claim C8, amended: `remove` is idempotent and a no-op on an
out-of-range or inactive index; after removing an active slot, the slot
is free (pushed on the free list), the 16-float stride of BOTH buffers
and the visual colour read zero and the cooldown is reset, but the
`allianceId` buffer reads `-1` (not zero) and the `generations` buffer
retains its previous value until `spawn` reuses the slot. -/
theorem remove_amended (st : CellStorage) (idx : ℕ) :
    remove (remove st idx) idx = remove st idx ∧
    (st.isActive idx = false → remove st idx = st) ∧
    (st.maxCells ≤ idx → remove st idx = st) ∧
    (idx < st.maxCells → st.isActive idx = true →
      (remove st idx).isActive idx = false ∧
      (remove st idx).freeIndices = idx :: st.freeIndices ∧
      (remove st idx).cells idx = zeroCell ∧
      (remove st idx).nextCells idx = zeroCell ∧
      (remove st idx).visualColors idx = (0, 0, 0, 0) ∧
      (remove st idx).allianceId idx = -1 ∧
      (remove st idx).cooldowns idx = 0 ∧
      (remove st idx).generations idx = st.generations idx) := by
  by_cases h : idx < st.maxCells ∧ st.isActive idx = true
  · have hrem : remove st idx =
      { st with
        isActive := setIdx st.isActive idx false
        freeIndices := idx :: st.freeIndices
        activeCount := st.activeCount - 1
        cells := setIdx st.cells idx zeroCell
        nextCells := setIdx st.nextCells idx zeroCell
        visualColors := setIdx st.visualColors idx (0, 0, 0, 0)
        allianceId := setIdx st.allianceId idx (-1)
        cooldowns := setIdx st.cooldowns idx 0 } := by
      rw [remove, if_pos h]
    refine ⟨?_, ?_, ?_, ?_⟩
    · conv_lhs => rw [remove]
      rw [if_neg]
      rw [hrem]
      simp [setIdx]
    · intro hin
      exact absurd h.2 (by rw [hin]; exact Bool.false_ne_true)
    · intro hge
      exact absurd h.1 (not_lt.mpr hge)
    · intro _ _
      rw [hrem]
      refine ⟨by simp [setIdx], rfl, by simp [setIdx], by simp [setIdx],
        by simp [setIdx], by simp [setIdx], by simp [setIdx], rfl⟩
  · have hrem : remove st idx = st := by rw [remove, if_neg h]
    rw [hrem]
    refine ⟨hrem, fun _ => rfl, fun _ => rfl, fun hlt hac => absurd ⟨hlt, hac⟩ h⟩

/-- Witness for `remove_amended` at the one-slot seed storage: the
hypotheses hold there and the amended conclusions evaluate. -/
theorem remove_amended_witness :
    (0 < removeSeedStorage.maxCells ∧ removeSeedStorage.isActive 0 = true) ∧
    remove (remove removeSeedStorage 0) 0 = remove removeSeedStorage 0 ∧
    (remove removeSeedStorage 0).generations 0 = removeSeedStorage.generations 0 ∧
    (remove removeSeedStorage 0).allianceId 0 = -1 := by
  have happ := remove_amended removeSeedStorage 0
  have hconcl := happ.2.2.2 (by decide) (by decide)
  exact ⟨⟨by decide, by decide⟩, happ.1, hconcl.2.2.2.2.2.2.2, hconcl.2.2.2.2.2.1⟩

/-- Claim C2, counterexample: (a) `spawn` writes genomes verbatim, so an
externally spawned agent carries the out-of-range gene value 2 and is
still live, with the gene still 2, at the next tick boundary;
(b) the mass-steal interaction drains a live victim's mass below the
claimed `mass ≥ 1` floor: after two ticks the victim is active with
mass `1 − 1.5·dt = 0.85` in the host-visible buffer. -/
theorem genome_invariant_counterexample :
    ((runTicks overEngine (q 1 10) (fun _ => midRand) 1).storage.cells 0).genome 7 = 2 ∧
    (1 : ℚ) < 2 ∧
    (runTicks overEngine (q 1 10) (fun _ => midRand) 1).storage.isActive 0 = true ∧
    ((runTicks stealEngine (q 1 10) (fun _ => midRand) 2).storage.cells 1).mass = q 17 20 ∧
    q 17 20 < 1 ∧
    (runTicks stealEngine (q 1 10) (fun _ => midRand) 2).storage.isActive 1 = true := by
  decide

/-- Bounds of the mutation clamp. -/
theorem clamp01_bounds (x : ℚ) : 0 ≤ clamp01 x ∧ clamp01 x ≤ 1 := by
  unfold clamp01
  rw [qmax_eq, qmin_eq]
  exact ⟨le_max_left 0 _, max_le (by norm_num) (min_le_left 1 x)⟩

/-- Claim C2, amended: genome values are clamped to `[0,1]` on mutation —
every gene of a child produced by `reproduce` lies in `[0,1]` whatever
the parent genome and random draws — but `spawn` performs NO clamping:
it records the provided genome verbatim (so live agents preserve genome
bounds only when seeded with in-range genomes), with mass 1 and
energy 100. -/
theorem genome_clamp_amended :
    (∀ (st : CellStorage) (p : ℕ) (rg : Fin 8 → ℚ) (rx ry : ℚ) (c : ℕ),
      (reproduce st p rg rx ry).1 = some c →
      ∀ i, 0 ≤ ((reproduce st p rg rx ry).2.cells c).genome i ∧
           ((reproduce st p rg rx ry).2.cells c).genome i ≤ 1) ∧
    (∀ (st : CellStorage) (x y : ℚ) (g : Genome) (c : ℕ),
      (spawn st x y g).1 = some c →
      ((spawn st x y g).2.cells c).genome = g ∧
      ((spawn st x y g).2.cells c).mass = 1 ∧
      ((spawn st x y g).2.cells c).energy = 100) := by
  constructor
  · intro st p rg rx ry c hc i
    cases hf : st.freeIndices with
    | nil => rw [reproduce, spawn, hf] at hc; exact absurd hc (by simp)
    | cons a rest =>
      rw [reproduce, spawn, hf] at hc ⊢
      simp only at hc ⊢
      have hca : c = a := by exact Option.some_injective _ hc.symm ▸ rfl
      subst hca
      simp only [setIdx, if_pos rfl]
      exact clamp01_bounds _
  · intro st x y g c hc
    cases hf : st.freeIndices with
    | nil => rw [spawn, hf] at hc; exact absurd hc (by simp)
    | cons a rest =>
      rw [spawn, hf] at hc ⊢
      simp only at hc ⊢
      have hca : c = a := by exact Option.some_injective _ hc.symm ▸ rfl
      subst hca
      simp only [setIdx, if_pos rfl]
      exact ⟨rfl, rfl, rfl⟩

/-- Witness for `genome_clamp_amended`: a concrete reproduction (with
maximal random draws) and a concrete spawn, hypotheses discharged by
evaluation. -/
theorem genome_clamp_amended_witness :
    ((reproduce (spawn (initStorage 2) 0 0 (fun _ => q 1 2)).2 0 (fun _ => 1) 1 1).1 = some 1 ∧
      0 ≤ (((reproduce (spawn (initStorage 2) 0 0 (fun _ => q 1 2)).2 0 (fun _ => 1) 1 1).2.cells 1).genome 3) ∧
      (((reproduce (spawn (initStorage 2) 0 0 (fun _ => q 1 2)).2 0 (fun _ => 1) 1 1).2.cells 1).genome 3) ≤ 1) ∧
    ((spawn (initStorage 1) 5 5 overG).1 = some 0 ∧
      ((spawn (initStorage 1) 5 5 overG).2.cells 0).genome = overG) := by
  refine ⟨⟨by decide, ?_, ?_⟩, by decide,
    (genome_clamp_amended.2 (initStorage 1) 5 5 overG 0 (by decide)).1⟩
  · exact ((genome_clamp_amended.1 _ 0 (fun _ => 1) 1 1 1 (by decide)) 3).1
  · exact ((genome_clamp_amended.1 _ 0 (fun _ => 1) 1 1 1 (by decide)) 3).2

/-- Claim C3, counterexample: processing the aggressive agent once at
`dt = 0.1` drains `0.15` mass from the victim into the agent in the
working buffer, and the drain pushes the victim's mass to `0.05 ≤ 0.1`
— yet NO Assimilation event is emitted (the source additionally
requires both masses to exceed 2), and the agent's energy after its
processing is the thermodynamics-only value `99.975`: the `15·dt`
energy gain was written to the buffer but overwritten by the final
energy write-back, so it is not observable after the tick. -/
theorem massSteal_counterexample :
    getEnergy gateRun.1 0 = q 99975 1000 ∧
    q 99975 1000 ≠ qadd (q 99975 1000) (qmul 15 (q 1 10)) ∧
    gateRun.2.1 = [] ∧
    qsub (q 1 5) (qmul (q 3 2) (q 1 10)) ≤ q 1 10 ∧
    (gateRun.1.cells 0).mass = q 23 20 ∧
    (gateRun.1.cells 1).mass = q 1 20 := by
  decide

/-- Claim C3, amended: for a visited neighbour `j ≠ i` in a different
alliance, with the processed agent's AGG above 0.5, its mass above
`1.2×` the neighbour's, and the neighbour outside the absorption
radius, the visit (i) moves `1.5·dt` of mass from `j` to `i` in the
working buffer, (ii) adds `15·dt` to `i`'s BUFFERED energy while
leaving the local energy accumulator unchanged, and (iii) emits the
Assimilation event (before the drain, from the pre-drain masses)
exactly when both masses exceed 2 and the post-drain mass is `≤ 0.1`;
and the end-of-processing write-back `deathStep` sets the surviving
agent's energy to the local accumulator, discarding the buffered gain. -/
theorem massSteal_amended (idx nIdx : ℕ) (x y agg dfn dt : ℚ)
    (lnFn : ℚ → ℚ) (s : VisitState)
    (hne : nIdx ≠ idx)
    (hallies : ¬(s.st.allianceId idx ≠ -1 ∧ s.st.allianceId idx = s.st.allianceId nIdx))
    (hagg : agg > q 1 2)
    (hmass : (s.st.cells idx).mass > qmul (s.st.cells nIdx).mass (q 12 10))
    (hdist : ¬(qadd (qsq (qsub (s.st.cells nIdx).x x)) (qsq (qsub (s.st.cells nIdx).y y))
      < qmul (qsq (qmul 8 (qadd 1 (qmul (lnFn ((s.st.cells idx).mass)) (q 3 2))))) (q 12 10))) :
    ((visitNeighbor idx x y agg dfn dt lnFn s nIdx).st.cells idx).mass
        = qadd (s.st.cells idx).mass (qmul (q 3 2) dt) ∧
    ((visitNeighbor idx x y agg dfn dt lnFn s nIdx).st.cells nIdx).mass
        = qsub (s.st.cells nIdx).mass (qmul (q 3 2) dt) ∧
    ((visitNeighbor idx x y agg dfn dt lnFn s nIdx).st.cells idx).energy
        = qadd (s.st.cells idx).energy (qmul (qmul (q 3 2) dt) 10) ∧
    (visitNeighbor idx x y agg dfn dt lnFn s nIdx).energy = s.energy ∧
    (visitNeighbor idx x y agg dfn dt lnFn s nIdx).events = s.events ++
      (if (s.st.cells idx).mass > 2 ∧ (s.st.cells nIdx).mass > 2 ∧
          qsub (s.st.cells nIdx).mass (qmul (q 3 2) dt) ≤ q 1 10 then
        [Event.assimilation (getDominantArchetype ((s.st.cells idx).genome))
          (getDominantArchetype ((s.st.cells nIdx).genome))]
      else []) ∧
    (∀ (st2 : CellStorage) (e : ℚ), 0 < e →
      getEnergy (deathStep st2 idx e) idx = e) := by
  have hid : idx ≠ nIdx := fun hcontra => hne hcontra.symm
  unfold visitNeighbor
  rw [if_neg hne]
  dsimp only
  have habs : ¬((s.st.cells idx).mass > qmul ((s.st.cells nIdx).mass) (q 12 10) ∧
      qadd (qsq (qsub ((s.st.cells nIdx).x) x)) (qsq (qsub ((s.st.cells nIdx).y) y)) <
        qmul (qsq (qmul 8 (qadd 1 (qmul (lnFn ((s.st.cells idx).mass)) (q 3 2))))) (q 12 10) ∧
      ¬(s.st.allianceId idx ≠ -1 ∧ s.st.allianceId idx = s.st.allianceId nIdx)) := by
    rintro ⟨h1, h2, h3⟩
    exact hdist h2
  have hsteal : ¬(s.st.allianceId idx ≠ -1 ∧ s.st.allianceId idx = s.st.allianceId nIdx) ∧
      agg > q 1 2 ∧ (s.st.cells idx).mass > qmul ((s.st.cells nIdx).mass) (q 12 10) :=
    ⟨hallies, hagg, hmass⟩
  rw [if_neg habs, if_pos hsteal, if_neg hallies]
  dsimp only
  constructor
  · split_ifs <;> simp [modifyCell, setIdx, hid]
  constructor
  · split_ifs <;> simp [modifyCell, setIdx, hid, hne]
  constructor
  · split_ifs <;> simp [modifyCell, setIdx, hid]
  constructor
  · split_ifs <;> rfl
  constructor
  · split_ifs with h1 h2 h3 <;> simp_all
  · intro st2 e he
    unfold deathStep
    rw [if_neg (not_le.mpr he)]
    simp [getEnergy, setEnergy, setIdx]

/-- Witness for `massSteal_amended` at the `gateStorage` scenario. -/
theorem massSteal_amended_witness :
    ((1 : ℕ) ≠ 0 ∧ q 9 10 > q 1 2) ∧
    ((visitNeighbor 0 100 100 (q 9 10) 0 (q 1 10) (fun _ => 0)
        { st := gateStorage, events := [], energy := q 99975 1000,
          bestTarget := none, minDist := none, fleeTarget := none,
          minFleeDist := none } 1).st.cells 0).mass
      = qadd ((gateStorage.cells 0).mass) (qmul (q 3 2) (q 1 10)) ∧
    (visitNeighbor 0 100 100 (q 9 10) 0 (q 1 10) (fun _ => 0)
        { st := gateStorage, events := [], energy := q 99975 1000,
          bestTarget := none, minDist := none, fleeTarget := none,
          minFleeDist := none } 1).events = [] := by
  have happ := massSteal_amended 0 1 100 100 (q 9 10) 0 (q 1 10) (fun _ => 0)
    { st := gateStorage, events := [], energy := q 99975 1000,
      bestTarget := none, minDist := none, fleeTarget := none,
      minFleeDist := none }
    (by decide) (by decide) (by decide) (by decide) (by decide)
  refine ⟨⟨by decide, by decide⟩, happ.1, ?_⟩
  rw [happ.2.2.2.2.1]
  decide

/-- Claim C9: when the local energy after the AI phase exceeds the
reproduction threshold 150 but the store is full (empty free list), the
evolution step spawns no child and leaves the cumulative birth counter
unchanged — `reproduce` fails atomically — yet the 80-energy
reproduction cost is still charged, and the write-back records
`e − 80` as the agent's energy. -/
theorem reproCost_full_store (st : CellStorage) (births : ℕ) (idx : ℕ)
    (e : ℚ) (rg : Fin 8 → ℚ) (rx ry : ℚ)
    (hfull : st.freeIndices = [])
    (he : e > 150) :
    (evolutionStep st births idx e rg rx ry).2.1 = births ∧
    (evolutionStep st births idx e rg rx ry).2.2 = qsub e 80 ∧
    (∀ j, (evolutionStep st births idx e rg rx ry).1.isActive j = st.isActive j) ∧
    (evolutionStep st births idx e rg rx ry).1.activeCount = st.activeCount ∧
    getEnergy (deathStep (evolutionStep st births idx e rg rx ry).1 idx
      ((evolutionStep st births idx e rg rx ry).2.2)) idx = qsub e 80 ∧
    (∀ j, (deathStep (evolutionStep st births idx e rg rx ry).1 idx
      ((evolutionStep st births idx e rg rx ry).2.2)).isActive j = st.isActive j) := by
  have hrep : reproduce st idx rg rx ry = (none, st) := by
    rw [reproduce, spawn, hfull]
  have hstep : evolutionStep st births idx e rg rx ry =
      (modifyCell st idx fun c => { c with meta := -1 }, births, qsub e 80) := by
    rw [evolutionStep, if_pos he, hrep]
    simp
  have hpos : ¬(qsub e 80 ≤ 0) := by
    rw [qsub_eq]
    intro hc
    linarith
  rw [hstep]
  refine ⟨rfl, rfl, fun j => rfl, rfl, ?_, ?_⟩
  · unfold deathStep
    rw [if_neg hpos]
    simp [getEnergy, setEnergy, setIdx]
  · intro j
    unfold deathStep
    rw [if_neg hpos]
    rfl

/-- Witness for `reproCost_full_store` on the full two-slot
`stealStorage` with local energy 200: no birth is counted, the energy
written back is `200 − 80 = 120`, and both agents stay active. -/
theorem reproCost_full_store_witness :
    stealStorage.freeIndices = [] ∧ (200 : ℚ) > 150 ∧
    (evolutionStep stealStorage 7 0 200 (fun _ => q 1 2) (q 1 2) (q 1 2)).2.1 = 7 ∧
    (evolutionStep stealStorage 7 0 200 (fun _ => q 1 2) (q 1 2) (q 1 2)).2.2 = qsub 200 80 ∧
    qsub (200 : ℚ) 80 = 120 ∧
    getEnergy (deathStep (evolutionStep stealStorage 7 0 200 (fun _ => q 1 2) (q 1 2) (q 1 2)).1 0
      ((evolutionStep stealStorage 7 0 200 (fun _ => q 1 2) (q 1 2) (q 1 2)).2.2)) 0 = qsub 200 80 := by
  have happ := reproCost_full_store stealStorage 7 0 200 (fun _ => q 1 2) (q 1 2) (q 1 2)
    (by decide) (by decide)
  exact ⟨by decide, by decide, happ.1, happ.2.1, by decide, happ.2.2.2.2.1⟩

/-- A full store rejects every spawn unchanged. -/
theorem spawn_full (st : CellStorage) (h : st.freeIndices = [])
    (x y : ℚ) (g : Genome) : spawn st x y g = (none, st) := by
  rw [spawn, h]

/-- Alliance-id assignment touches no storage field besides
`allianceId`. -/
theorem setAllianceIds_fields (members : List ℕ) (st : CellStorage) (aid : ℤ) :
    (setAllianceIds st members aid).cells = st.cells ∧
    (setAllianceIds st members aid).nextCells = st.nextCells ∧
    (setAllianceIds st members aid).isActive = st.isActive ∧
    (setAllianceIds st members aid).activeCount = st.activeCount ∧
    (setAllianceIds st members aid).freeIndices = st.freeIndices ∧
    (setAllianceIds st members aid).maxCells = st.maxCells := by
  induction members generalizing st with
  | nil => exact ⟨rfl, rfl, rfl, rfl, rfl, rfl⟩
  | cons h t ih =>
    have := ih { st with allianceId := setIdx st.allianceId h aid }
    simp only [setAllianceIds, List.foldl] at this ⊢
    exact this

/-- One alliance-loop iteration over a FULL store preserves the cell
buffers, the active set, the counters and the free list, and emits no
Fusion event. -/
theorem allianceStep_preserves (colonies : List ℕ) (base : CellStorage)
    (evs0 : List Event) (a : CellStorage × List Event × List ℕ × ℤ) (idx : ℕ)
    (h1 : a.1.cells = base.cells) (h2 : a.1.nextCells = base.nextCells)
    (h3 : a.1.isActive = base.isActive) (h4 : a.1.activeCount = base.activeCount)
    (h5 : a.1.freeIndices = [])
    (h6 : (a.2.1).filter Event.isFusion = evs0.filter Event.isFusion) :
    (allianceStep colonies a idx).1.cells = base.cells ∧
    (allianceStep colonies a idx).1.nextCells = base.nextCells ∧
    (allianceStep colonies a idx).1.isActive = base.isActive ∧
    (allianceStep colonies a idx).1.activeCount = base.activeCount ∧
    (allianceStep colonies a idx).1.freeIndices = [] ∧
    ((allianceStep colonies a idx).2.1).filter Event.isFusion
      = evs0.filter Event.isFusion := by
  unfold allianceStep
  by_cases hv : idx ∈ a.2.2.1
  · rw [if_pos hv]
    exact ⟨h1, h2, h3, h4, h5, h6⟩
  · rw [if_neg hv]
    dsimp only
    by_cases hlen : 3 ≤ (partnerSearch a.1 colonies a.2.2.1 idx).1.length
    · rw [if_pos hlen]
      have hf := setAllianceIds_fields (partnerSearch a.1 colonies a.2.2.1 idx).1
        a.1 a.2.2.2
      have hfree : (setAllianceIds a.1 (partnerSearch a.1 colonies a.2.2.1 idx).1
          a.2.2.2).freeIndices = [] := by
        rw [hf.2.2.2.2.1]
        exact h5
      split_ifs with hm
      · rw [spawn_full _ hfree]
        exact ⟨hf.1.trans h1, hf.2.1.trans h2, hf.2.2.1.trans h3,
          hf.2.2.2.1.trans h4, hfree, h6⟩
      · refine ⟨hf.1.trans h1, hf.2.1.trans h2, hf.2.2.1.trans h3,
          hf.2.2.2.1.trans h4, hfree, ?_⟩
        rw [List.filter_append, h6]
        simp [Event.isFusion]
    · rw [if_neg hlen]
      exact ⟨h1, h2, h3, h4, h5, h6⟩

/-- Claim C10: the 60-tick alliance pass over a FULL store (no free
index) leaves the cell buffers, the active set, the activeCount and the
(empty) free list untouched and adds no Fusion event: a fusion whose
super-colony spawn fails is skipped atomically — no member is removed;
the alliance ids assigned before the fusion check are kept (shown on a
concrete triplet by the witness). -/
theorem alliance_fusion_full_store (st : CellStorage) (events : List Event)
    (hfull : st.freeIndices = []) :
    (updateAlliances st events).1.cells = st.cells ∧
    (updateAlliances st events).1.nextCells = st.nextCells ∧
    (updateAlliances st events).1.isActive = st.isActive ∧
    (updateAlliances st events).1.activeCount = st.activeCount ∧
    (updateAlliances st events).1.freeIndices = [] ∧
    ((updateAlliances st events).2).filter Event.isFusion
      = events.filter Event.isFusion := by
  have main : ∀ (cols l : List ℕ) (a : CellStorage × List Event × List ℕ × ℤ),
      a.1.cells = st.cells → a.1.nextCells = st.nextCells →
      a.1.isActive = st.isActive → a.1.activeCount = st.activeCount →
      a.1.freeIndices = [] →
      (a.2.1).filter Event.isFusion = events.filter Event.isFusion →
      (l.foldl (allianceStep cols) a).1.cells = st.cells ∧
      (l.foldl (allianceStep cols) a).1.nextCells = st.nextCells ∧
      (l.foldl (allianceStep cols) a).1.isActive = st.isActive ∧
      (l.foldl (allianceStep cols) a).1.activeCount = st.activeCount ∧
      (l.foldl (allianceStep cols) a).1.freeIndices = [] ∧
      ((l.foldl (allianceStep cols) a).2.1).filter Event.isFusion
        = events.filter Event.isFusion := by
    intro cols l
    induction l with
    | nil => intro a h1 h2 h3 h4 h5 h6; exact ⟨h1, h2, h3, h4, h5, h6⟩
    | cons x xs ih =>
      intro a h1 h2 h3 h4 h5 h6
      have hstep := allianceStep_preserves cols st events a x h1 h2 h3 h4 h5 h6
      exact ih _ hstep.1 hstep.2.1 hstep.2.2.1 hstep.2.2.2.1
        hstep.2.2.2.2.1 hstep.2.2.2.2.2
  unfold updateAlliances
  dsimp only
  exact main _ _ _ rfl rfl rfl rfl hfull rfl

/-- Witness for `alliance_fusion_full_store` on the concrete triplet:
the pass is atomic (no member removed, no event at all), and the three
members carry the newly assigned alliance id 1. -/
theorem alliance_fusion_full_store_witness :
    allianceSeedStorage.freeIndices = [] ∧
    (updateAlliances allianceSeedStorage []).1.isActive
      = allianceSeedStorage.isActive ∧
    ((updateAlliances allianceSeedStorage []).2).filter Event.isFusion
      = List.filter Event.isFusion [] ∧
    (updateAlliances allianceSeedStorage []).2 = [] ∧
    (updateAlliances allianceSeedStorage []).1.allianceId 0 = 1 ∧
    (updateAlliances allianceSeedStorage []).1.allianceId 1 = 1 ∧
    (updateAlliances allianceSeedStorage []).1.allianceId 2 = 1 ∧
    (updateAlliances allianceSeedStorage []).1.activeCount = 3 := by
  have happ := alliance_fusion_full_store allianceSeedStorage [] (by decide)
  exact ⟨by decide, happ.2.2.1, happ.2.2.2.2.2, by decide, by decide,
    by decide, by decide, by decide⟩

/-- The nearest-prototype scan returns an index inside the list. -/
theorem nearestSpecies_lt (l : List Species) (g : Genome) (bi : ℕ) (bd : ℚ)
    (h : nearestSpecies l g = some (bi, bd)) : bi < l.length := by
  have aux : ∀ (entries : List (ℕ × Species)) (acc : Option (ℕ × ℚ)),
      (∀ i d, acc = some (i, d) → i < l.length) →
      (∀ p ∈ entries, p.1 < l.length) →
      ∀ i d, entries.foldl (nearestStep g) acc = some (i, d) → i < l.length := by
    intro entries
    induction entries with
    | nil => intro acc hacc _ i d hfold; exact hacc i d hfold
    | cons p ps ih =>
      intro acc hacc hents i d hfold
      rw [List.foldl_cons] at hfold
      refine ih (nearestStep g acc p) ?_ (fun p' hp' => hents p' (List.mem_cons_of_mem _ hp')) i d hfold
      intro i' d' hstep
      unfold nearestStep at hstep
      rcases acc with _ | ⟨bi0, bd0⟩
      · simp only at hstep
        cases hstep
        exact hents p (List.mem_cons_self _ _)
      · simp only at hstep
        split_ifs at hstep <;> cases hstep
        · exact hents p (List.mem_cons_self _ _)
        · exact hacc _ _ rfl
  refine aux l.enum none (fun i d h => by cases h) ?_ bi bd h
  intro p hp
  exact List.fst_lt_of_mem_enum hp

/-- `identify` never removes a species nor decreases a population: any
live-tracked value stays live-tracked. -/
theorem identify_preserves (tr : SpeciesTracker) (g : Genome) (v : ℚ)
    (h : TrackedLive tr v) : TrackedLive (identify tr g).2 v := by
  obtain ⟨s, hs, hv, hpop⟩ := h
  unfold identify
  cases hn : nearestSpecies tr.speciesList g with
  | none =>
    exact ⟨s, List.mem_append_left _ hs, hv, hpop⟩
  | some p =>
    obtain ⟨bi, bd⟩ := p
    dsimp only
    split_ifs with hbd
    · cases hget : tr.speciesList.get? bi with
      | none => exact ⟨s, hs, hv, hpop⟩
      | some sp =>
        obtain ⟨k, hk⟩ := List.get?_of_mem hs
        by_cases hkb : k = bi
        · subst hkb
          have hssp : s = sp := by
            rw [hk] at hget
            exact Option.some.inj hget
          refine ⟨{ sp with population := sp.population + 1 }, ?_, ?_, Nat.succ_pos _⟩
          · refine List.get?_mem (n := k) ?_
            rw [List.get?_set_eq_of_lt _ (List.get?_eq_some.mp hget).1]
          · rw [hv, hssp]
        · refine ⟨s, ?_, hv, hpop⟩
          refine List.get?_mem (n := k) ?_
          rw [List.get?_set_ne _ _ (fun hc => hkb hc.symm)]
          exact hk
    · exact ⟨s, List.mem_append_left _ hs, hv, hpop⟩

/-- The id returned by `identify` is live-tracked in the post-`identify`
tracker. -/
theorem identify_tracked (tr : SpeciesTracker) (g : Genome) :
    TrackedLive (identify tr g).2 (((identify tr g).1 : ℕ) : ℚ) := by
  unfold identify
  cases hn : nearestSpecies tr.speciesList g with
  | none =>
    refine ⟨_, List.mem_append_right _ (List.mem_singleton_self _), rfl, Nat.one_pos⟩
  | some p =>
    obtain ⟨bi, bd⟩ := p
    dsimp only
    split_ifs with hbd
    · cases hget : tr.speciesList.get? bi with
      | none =>
        exfalso
        have hlt := nearestSpecies_lt tr.speciesList g bi bd hn
        have hge := List.get?_eq_none.mp hget
        omega
      | some sp =>
        refine ⟨{ sp with population := sp.population + 1 }, ?_, rfl, Nat.succ_pos _⟩
        refine List.get?_mem (n := bi) ?_
        rw [List.get?_set_eq_of_lt _ (List.get?_eq_some.mp hget).1]
    · refine ⟨_, List.mem_append_right _ (List.mem_singleton_self _), rfl, Nat.one_pos⟩

/-- Pruning keeps every live-tracked id present. -/
theorem prune_keeps (tr : SpeciesTracker) (v : ℚ) (h : TrackedLive tr v) :
    ∃ s, s ∈ (prune tr).speciesList ∧ v = (s.id : ℚ) := by
  obtain ⟨s, hs, hv, hpop⟩ := h
  exact ⟨s, List.mem_filter.mpr ⟨hs, decide_eq_true hpop⟩, hv⟩

/-- The species-pass loop never changes the active set. -/
theorem speciesLoop_active (l : List ℕ)
    (acc : CellStorage × SpeciesTracker × List (ℕ × ℕ)) :
    (l.foldl speciesStep acc).1.isActive = acc.1.isActive := by
  induction l generalizing acc with
  | nil => rfl
  | cons x xs ih =>
    rw [List.foldl_cons, ih]
    unfold speciesStep
    split_ifs <;> rfl

/-- Loop invariant of the species pass: after processing the list, every
active slot whose index was in the list (or that was already correctly
tagged) carries a live-tracked id. -/
theorem speciesLoop_inv (l : List ℕ)
    (acc : CellStorage × SpeciesTracker × List (ℕ × ℕ))
    (hacc : ∀ j, acc.1.isActive j = true →
      j ∈ l ∨ TrackedLive acc.2.1 ((acc.1.cells j).meta)) :
    ∀ j, (l.foldl speciesStep acc).1.isActive j = true →
      TrackedLive (l.foldl speciesStep acc).2.1
        (((l.foldl speciesStep acc).1.cells j).meta) := by
  induction l generalizing acc with
  | nil =>
    intro j hj
    rcases hacc j hj with h | h
    · exact absurd h (List.not_mem_nil j)
    · exact h
  | cons x xs ih =>
    intro j hj
    rw [List.foldl_cons] at hj ⊢
    refine ih (speciesStep acc x) ?_ j hj
    intro j' hj'
    unfold speciesStep at hj' ⊢
    by_cases hx : acc.1.isActive x = true
    · rw [if_pos hx] at hj' ⊢
      by_cases hjx : j' = x
      · subst hjx
        right
        dsimp only
        rw [show (modifyCell acc.1 j' fun c =>
            { c with meta := ((identify acc.2.1 ((acc.1.cells j').genome)).1 : ℚ) }).cells j'
            = { acc.1.cells j' with
                meta := ((identify acc.2.1 ((acc.1.cells j').genome)).1 : ℚ) } from by
          simp [modifyCell, setIdx]]
        exact identify_tracked acc.2.1 ((acc.1.cells j').genome)
      · have hj'' : acc.1.isActive j' = true := hj'
        rcases hacc j' hj'' with hmem | htr
        · rcases List.mem_cons.mp hmem with hcase | hcase
          · exact absurd hcase hjx
          · exact Or.inl hcase
        · right
          dsimp only
          rw [show (modifyCell acc.1 x fun c =>
              { c with meta := ((identify acc.2.1 ((acc.1.cells x).genome)).1 : ℚ) }).cells j'
              = acc.1.cells j' from by
            simp [modifyCell, setIdx, hjx]]
          exact identify_preserves acc.2.1 ((acc.1.cells x).genome) _ htr
    · rw [if_neg hx] at hj' ⊢
      rcases hacc j' hj' with hmem | htr
      · rcases List.mem_cons.mp hmem with hcase | hcase
        · subst hcase
          exact absurd hj' hx
        · exact Or.inl hcase
      · exact Or.inr htr

/-- Claim C4, counterexample: immediately after an external `spawn` on a
fresh store the slot's species/metadata field reads 0 — `spawn` never
writes offset 7, which holds the buffer's initial (or `remove`-cleared)
zero — while the claim demands `-1`; and 0 is not a key of the (empty)
tracker either, whose ids start at 1. -/
theorem speciesId_counterexample :
    ((spawn (initStorage 1) 5 5 (fun _ => q 1 2)).2.cells 0).meta = 0 ∧
    (0 : ℚ) ≠ -1 ∧
    initTracker.speciesList = [] ∧
    initTracker.nextId = 1 :=
  ⟨by decide, by decide, rfl, rfl⟩

/-- Claim C4, amended: `spawn` leaves the species/metadata slot at its
previous buffer value (0 on a fresh or cleared slot), not `-1`; and
immediately after a species pass every active slot's metadata holds the
id of a species present in the post-pass (pruned) tracker. -/
theorem speciesId_amended :
    (∀ (st : CellStorage) (x y : ℚ) (g : Genome) (c : ℕ),
      (spawn st x y g).1 = some c →
      ((spawn st x y g).2.cells c).meta = (st.cells c).meta) ∧
    (∀ (st : CellStorage) (tr : SpeciesTracker),
      (∀ j, st.isActive j = true → j < st.maxCells) →
      ∀ j, st.isActive j = true →
        ∃ s, s ∈ (updateSpecies st tr).2.1.speciesList ∧
          ((updateSpecies st tr).1.cells j).meta = (s.id : ℚ)) := by
  constructor
  · intro st x y g c hc
    cases hf : st.freeIndices with
    | nil => rw [spawn, hf] at hc; exact absurd hc (by simp)
    | cons a rest =>
      rw [spawn, hf] at hc ⊢
      simp only at hc ⊢
      have hca : c = a := by exact Option.some_injective _ hc.symm ▸ rfl
      subst hca
      simp [setIdx]
  · intro st tr hwf j hj
    have hact : ((List.range st.maxCells).foldl speciesStep
        (st, resetCounts tr, [])).1.isActive j = true := by
      rw [speciesLoop_active]
      exact hj
    have hinv := speciesLoop_inv (List.range st.maxCells)
      (st, resetCounts tr, [])
      (fun j' hj' => Or.inl (List.mem_range.mpr (hwf j' hj')))
      j hact
    have hres := prune_keeps _ _ hinv
    obtain ⟨s, hs, hv⟩ := hres
    exact ⟨s, hs, hv⟩

/-- Witness for `speciesId_amended`: a concrete spawn keeps the metadata
slot unchanged, and after a species pass over the two-agent
`stealStorage` the processed slot's metadata is a present tracker id. -/
theorem speciesId_amended_witness :
    ((spawn (initStorage 1) 5 5 preySeedG).1 = some 0 ∧
      ((spawn (initStorage 1) 5 5 preySeedG).2.cells 0).meta
        = ((initStorage 1).cells 0).meta) ∧
    (stealStorage.isActive 0 = true ∧
      ∃ s, s ∈ (updateSpecies stealStorage initTracker).2.1.speciesList ∧
        ((updateSpecies stealStorage initTracker).1.cells 0).meta = (s.id : ℚ)) := by
  have hwf : ∀ j, stealStorage.isActive j = true → j < stealStorage.maxCells :=
    fun j hj => of_decide_eq_true hj
  refine ⟨⟨by decide, speciesId_amended.1 (initStorage 1) 5 5 preySeedG 0 (by decide)⟩,
    by decide, speciesId_amended.2 stealStorage initTracker hwf 0 (by decide)⟩

/-- Claim C1: the colony pass finds the 16-member Producer cluster
(threshold 15), removes all members and spawns exactly one replacement
(slot 15, the last freed index) with mass `Σ = 16` and energy
`120 + 10·16 = 280` as claimed — but the replacement's genome is
ALL-ZERO, not the most energetic member's Producer genome
(`PHO = 0.8`): `formColony` captures the best genome as a
`subarray` view into the buffer, and its own `remove` calls zero the
backing slot before `spawn` dereferences the view.  Consequently the
replacement's archetype is Average (0) and the Colony event carries the
`Promedio` colour, not `Productor`. -/
theorem colony_genome_zeroed :
    colonyRun.1.isActive 15 = true ∧
    colonyRun.1.activeCount = 1 ∧
    ((List.range 16).all fun i => colonyRun.1.isActive i == decide (i = 15)) = true ∧
    List.ofFn (colonyRun.1.cells 15).genome = List.replicate 8 0 ∧
    (colonyRun.1.cells 15).genome 2 = 0 ∧
    prodG 2 = q 4 5 ∧
    (0 : ℚ) ≠ q 4 5 ∧
    (colonyRun.1.cells 15).mass = 16 ∧
    (colonyRun.1.cells 15).energy = 280 ∧
    (colonyRun.1.cells 15).arch = 0 ∧
    colonyRun.2 = [Event.colony 0 16] := by
  decide

end Primordial
